import Mathlib

/-!
Verification development for the agentcoin-bot mining core.

This file gives a shallow embedding, in Lean 4, of the parts of the
repository that the specification's testable properties talk about:

* `src/miner.py` — the per-worker submission state machine
  (`Miner.solve_and_submit`, `Miner._has_submitted_onchain`,
  `Miner._submit_answer`, `Miner._parse_revert`);
* `src/mine.py` — the batch orchestrator's eligibility filter
  (`batch_mine._dispatch_problem`);
* `src/solver.py` — the solving cascade (`Solver.solve`,
  `Solver._int_to_bytes32`, `Solver._solve_with_code`,
  `Solver._solve_with_reasoning`, `Solver._extract_number`,
  `Solver._normalize_number`, `Solver._extract_code`);
* `src/local_solver.py` — the deterministic pattern solver
  (`solve_locally` and its recognizers).

Conventions used throughout the embedding:

* Python machine-independent integers are `Nat`/`Int`; the 256-bit
  wrap in the commitment encoder is explicit (`% 2 ^ 256`).
* Fallible operations return `Option`/`Except`; a Python exception
  that a caller catches is modelled as the corresponding `none`/error
  value flowing to that caller.
* Network and AI effects (chain reads/writes, language-model calls,
  sandboxed execution) are modelled as oracle inputs (`MinerEnv`,
  `SolverEnv`), and the calls a run performs are recorded in an
  explicit trace so that "no on-chain write" or "zero AI calls" are
  statable.
* Python regular-expression searches are executed by a small
  backtracking engine (`RE`, `reSearch`) with Python's leftmost /
  greedy / lazy priorities; each pattern of the source is transcribed
  into an `RE` value next to the function that uses it.
-/

/-! ### Python string primitives used by the sources -/

/-- Python `str.lower` on the (ASCII) texts involved: char-wise lowering. -/
def pyLower (s : List Char) : List Char := s.map Char.toLower

/-- Python whitespace for `str.strip`. -/
def isPyWS (c : Char) : Bool :=
  c = ' ' || c = '\t' || c = '\n' || c = '\x0d' || c = '\x0b' || c = '\x0c'

/-- Python `str.strip()`. -/
def pyStrip (s : List Char) : List Char :=
  ((s.dropWhile isPyWS).reverse.dropWhile isPyWS).reverse

/-- Python `needle in haystack` on strings. -/
def pyIn (needle : List Char) : List Char → Bool
  | [] => needle.isEmpty
  | c :: rest => needle.isPrefixOf (c :: rest) || pyIn needle rest

/-- Digits of `n` in base 10, most significant first. -/
def natDigitsBE (n : Nat) : List Char :=
  (Nat.toDigits 10 n)

/-- Python `str(n)` for a natural number. -/
def natToStr (n : Nat) : List Char := natDigitsBE n

/-- Python `str(v)` for an integer. -/
def intToStr (v : Int) : List Char :=
  if v < 0 then '-' :: natToStr v.natAbs else natToStr v.natAbs

/-- Python `int(s)` on a trimmed token: optional sign then digits only;
`none` models the `ValueError` raised on anything else (e.g. `"4.5"`). -/
def pyParseInt (s : List Char) : Option Int :=
  match s with
  | [] => none
  | '-' :: rest =>
      if rest ≠ [] ∧ rest.all Char.isDigit then
        some (-(Int.ofNat (rest.foldl (fun a c => a * 10 + (c.toNat - 48)) 0)))
      else none
  | _ =>
      if s.all Char.isDigit then
        some (Int.ofNat (s.foldl (fun a c => a * 10 + (c.toNat - 48)) 0))
      else none

/-- Python `text.replace(old, new)` (all occurrences, left to right);
`fuel` bounds the scan and is always instantiated above the text length. -/
def pyReplaceAux (fuel : Nat) (old new s : List Char) : List Char :=
  match fuel with
  | 0 => s
  | fuel + 1 =>
      match s with
      | [] => []
      | c :: rest =>
          if old ≠ [] ∧ old.isPrefixOf s then
            new ++ pyReplaceAux fuel old new (s.drop old.length)
          else
            c :: pyReplaceAux fuel old new rest

def pyReplace (s old new : List Char) : List Char :=
  pyReplaceAux (s.length + 1) old new s

/-- Python `s.split(sep)[-1]`: the part after the last occurrence of `sep`
(the whole string when `sep` does not occur). -/
def pySplitLastPart (fuel : Nat) (sep s : List Char) : List Char :=
  match fuel with
  | 0 => s
  | fuel + 1 =>
      match s with
      | [] => []
      | _ :: rest =>
          if sep.isPrefixOf s then
            let tail := s.drop sep.length
            if pyIn sep tail then pySplitLastPart fuel sep tail
            else tail
          else pySplitLastPart fuel sep rest

def pySplitLast (s sep : List Char) : List Char :=
  if pyIn sep s then pySplitLastPart (s.length + 1) sep s else s

/-- Python `str.splitlines()` on `\n`-separated text: split on newlines,
with no trailing empty entry for a trailing newline, and `[]` for `""`. -/
def pySplitlinesAux (cur : List Char) (s : List Char) : List (List Char) :=
  match s with
  | [] => [cur.reverse]
  | c :: rest =>
      if c = '\n' then cur.reverse :: pySplitlinesAux [] rest
      else pySplitlinesAux (c :: cur) rest

def pySplitlines (s : List Char) : List (List Char) :=
  match s with
  | [] => []
  | _ =>
      let parts := pySplitlinesAux [] s
      if s.getLast? = some '\n' then parts.dropLast else parts

/-! ### `Solver._int_to_bytes32` (src/solver.py lines 111-116)

```python
@staticmethod
def _int_to_bytes32(value: int) -> bytes:
    if value < 0:
        value = value & ((1 << 256) - 1)
    return value.to_bytes(32, byteorder='big')
```

For a negative Python integer, `value & ((1 << 256) - 1)` equals
`value mod 2**256` (infinite two's complement); `int.to_bytes(32, 'big')`
raises `OverflowError` exactly when the (now non-negative) value does not
fit in 32 bytes.  The `none` result models that exception. -/

/-- Big-endian bytes of `n`, `width` bytes, least significant last. -/
def natToBytesBE : Nat → Nat → List Nat
  | 0, _ => []
  | width + 1, n => natToBytesBE width (n / 256) ++ [n % 256]

def int_to_bytes32 (value : Int) : Option (List Nat) :=
  let v : Int := if value < 0 then value % ((2 : Int) ^ 256) else value
  if v < (2 : Int) ^ 256 then some (natToBytesBE 32 v.toNat) else none

theorem natToBytesBE_length (width n : Nat) :
    (natToBytesBE width n).length = width := by
  induction width generalizing n with
  | zero => rfl
  | succ w ih => simp [natToBytesBE, ih]

/-! ### The worker submission state machine (src/miner.py)

`Miner.solve_and_submit` (lines 177-277) consumes a problem dict and
performs, in order: the local-cache check, the on-chain existence
check, the template check, the solve, the deadline re-check, and the
on-chain submission with revert classification.  The network and the
solver are oracles here (`MinerEnv`); the calls actually performed are
recorded as a `MinerEff` trace.  `Miner.stats` is modelled by the two
counters the claims mention; the display strings of `stats` are
presentation only and are omitted. -/

/-- Outcome `{"action": ...}` of `Miner.solve_and_submit`. -/
inductive MinerAction where
  | submitted
  | skip
  | error
  | gas_exhausted
  deriving DecidableEq, Repr

/-- The fields of `Miner` state that the submission pipeline reads or
writes: `_submitted_problems`, `gas_exhausted`, and the two counters
`stats["problems_solved"]` / `stats["problems_submitted"]`. -/
structure MinerState where
  submitted_problems : List Nat
  gas_exhausted : Bool
  problems_solved : Nat
  problems_submitted : Nat
  deriving DecidableEq, Repr

/-- The problem dict handed to `solve_and_submit` by the poller. -/
structure ProblemInfo where
  problem_id : Nat
  answer_deadline : Int
  template_text : Option (List Char)
  deriving DecidableEq, Repr

/-- Result dict of `Solver.solve` (src/solver.py); the miner reads
`success`, `answer`, `answer_hash`, `method` and `error`. -/
structure SolveResultDict where
  success : Bool
  answer : Option (List Char)
  answer_hash : Option (List Nat)
  method : Option (List Char)
  error : Option (List Char)
  raw_response : Option (List Char)
  deriving DecidableEq, Repr

/-- Raw outcome of `contracts.send_tx` inside `Miner._submit_answer`:
a mined receipt with status 1, a mined receipt with status 0, or a
raised exception carrying its message string. -/
inductive TxOutcome where
  | receiptOk (tx_hash : List Char)
  | receiptFail
  | exn (msg : List Char)
  deriving DecidableEq, Repr

/-- Oracle inputs for one `solve_and_submit` run: the on-chain
existence read (`Except` for a raised exception), the cascade result,
the wall clock at the deadline re-check (step 5), and the submission
transaction outcome. -/
structure MinerEnv where
  chain_check : Except Unit Bool
  solve_result : SolveResultDict
  now_recheck : Int
  tx : TxOutcome
  deriving Repr

/-- Externally visible calls of one run. -/
inductive MinerEff where
  | chainRead (pid : Nat)
  | solve (pid : Nat)
  | chainWrite (pid : Nat)
  deriving DecidableEq, Repr

/-- `Miner.REVERT_SELECTORS` (insertion order of the dict literal). -/
def REVERT_SELECTORS : List (List Char × List Char) :=
  [("0x81d820a8".toList, "AlreadySubmitted".toList),
   ("0xec2b7666".toList, "AnswerPeriodEnded".toList),
   ("0x2d0a3f8e".toList, "ProblemNotActive".toList),
   ("0x584a7938".toList, "AgentNotRegistered".toList)]

/-- `Miner._parse_revert` (lines 444-448): first selector whose hex
digits (selector without the `0x`) occur in the error string. -/
def parse_revert (error_str : List Char) : Option (List Char) :=
  (REVERT_SELECTORS.find? (fun p => pyIn (p.1.drop 2) error_str)).map (·.2)

/-- Result dict of `Miner._submit_answer`. -/
structure SubmitDict where
  success : Bool
  tx_hash : Option (List Char)
  error : Option (List Char)
  revert_reason : Option (List Char)
  deriving DecidableEq, Repr

/-- `Miner._submit_answer` (lines 425-442), given the transaction
outcome produced by the chain. -/
def submit_answer (tx : TxOutcome) : SubmitDict :=
  match tx with
  | TxOutcome.receiptOk h => ⟨true, some h, none, none⟩
  | TxOutcome.receiptFail => ⟨false, none, some "交易失败 (status=0)".toList, none⟩
  | TxOutcome.exn msg =>
      match parse_revert msg with
      | some reason => ⟨false, none, some reason, some reason⟩
      | none => ⟨false, none, some msg, none⟩

/-- `Miner._has_submitted_onchain` (lines 415-423): the answer-hash
read, with `except Exception: return False`. -/
def has_submitted_onchain (chain_check : Except Unit Bool) : Bool :=
  match chain_check with
  | Except.ok b => b
  | Except.error _ => false

/-- `Miner.has_submitted` (lines 279-281): cache-only check. -/
def has_submitted (st : MinerState) (problem_id : Nat) : Bool :=
  st.submitted_problems.contains problem_id

/-- `Miner.solve_and_submit` (lines 177-277).  Returns the action, the
post-state, and the trace of external calls made. -/
def solve_and_submit (st : MinerState) (problem : ProblemInfo) (env : MinerEnv) :
    MinerAction × MinerState × List MinerEff :=
  let pid := problem.problem_id
  -- 1. local-cache check (lines 188-191)
  if st.submitted_problems.contains pid then
    (MinerAction.skip, st, [])
  else
    -- 2. on-chain check (lines 194-199)
    let trace0 := [MinerEff.chainRead pid]
    if has_submitted_onchain env.chain_check then
      (MinerAction.skip,
       { st with submitted_problems := pid :: st.submitted_problems }, trace0)
    else
      -- 3. template check (lines 202-205); `if not template_text`
      -- is true for a missing key and for an empty string
      match problem.template_text with
      | none => (MinerAction.error, st, trace0)
      | some tpl =>
        if tpl.isEmpty then (MinerAction.error, st, trace0)
        else
          -- 4. solve (lines 211-226)
          let trace1 := trace0 ++ [MinerEff.solve pid]
          let sr := env.solve_result
          if ¬ sr.success then (MinerAction.error, st, trace1)
          else
            match sr.answer, sr.answer_hash with
            | some _, some _ =>
              let st1 := { st with problems_solved := st.problems_solved + 1 }
              -- 5. deadline re-check (lines 228-233): `now >= deadline`
              if problem.answer_deadline ≤ env.now_recheck then
                (MinerAction.skip,
                 { st1 with submitted_problems := pid :: st1.submitted_problems },
                 trace1)
              else
                -- 6. submit (lines 235-271)
                let trace2 := trace1 ++ [MinerEff.chainWrite pid]
                let submit_result := submit_answer env.tx
                if submit_result.success then
                  (MinerAction.submitted,
                   { st1 with
                      submitted_problems := pid :: st1.submitted_problems,
                      problems_submitted := st1.problems_submitted + 1 },
                   trace2)
                else
                  let revert := submit_result.revert_reason.getD []
                  if revert = "AlreadySubmitted".toList then
                    (MinerAction.skip,
                     { st1 with
                        submitted_problems := pid :: st1.submitted_problems,
                        problems_submitted := st1.problems_submitted + 1 },
                     trace2)
                  else if revert = "AnswerPeriodEnded".toList then
                    (MinerAction.skip,
                     { st1 with
                        submitted_problems := pid :: st1.submitted_problems },
                     trace2)
                  else
                    let error_lower := pyLower (submit_result.error.getD "未知".toList)
                    if pyIn "insufficient funds".toList error_lower then
                      (MinerAction.gas_exhausted,
                       { st1 with gas_exhausted := true }, trace2)
                    else
                      (MinerAction.error, st1, trace2)
            | _, _ =>
              -- `solve_result["answer"]` raising `KeyError` lands in the
              -- outer `except` (lines 273-277)
              (MinerAction.error, st, trace1)

/-- The eligibility filter of `batch_mine._dispatch_problem`
(src/mine.py line 480): the exact set of miners whose
`solve_and_submit` is invoked for this problem. -/
def pending_miners (miners : List MinerState) (pid : Nat) : List MinerState :=
  miners.filter (fun m => !(has_submitted m pid) && !m.gas_exhausted)

/-! ### Structural lemmas about `solve_and_submit` -/

set_option maxHeartbeats 2000000 in
/-- Every run that ends in `submitted` or `skip` leaves the problem id
in the local submitted-cache (each such branch of the source either
found it there or adds it). -/
theorem contains_of_terminal_success (st : MinerState) (p : ProblemInfo)
    (env : MinerEnv) :
    ((solve_and_submit st p env).1 = MinerAction.submitted ∨
      (solve_and_submit st p env).1 = MinerAction.skip) →
    ((solve_and_submit st p env).2.1.submitted_problems.contains p.problem_id) = true := by
  obtain ⟨cache, gas, ns, nm⟩ := st
  obtain ⟨pid, dl, tpl⟩ := p
  obtain ⟨cc, ⟨suc, ans, ahash, mth, err, raw⟩, now, tx⟩ := env
  cases tpl <;> cases suc <;> cases ans <;> cases ahash <;>
    simp only [solve_and_submit] <;> split_ifs <;> intro hs <;>
    first
    | assumption
    | exact hs.elim (fun h => h.elim) (fun h => h.elim)
    | simp only [List.contains_cons, beq_self_eq_true, Bool.true_or]

set_option maxHeartbeats 2000000 in
/-- No branch of `solve_and_submit` ever writes `False` into
`gas_exhausted`: the only write (the insufficient-funds branch) sets it
to `True`. -/
theorem gas_exhausted_mono (st : MinerState) (p : ProblemInfo) (env : MinerEnv) :
    st.gas_exhausted = true →
    (solve_and_submit st p env).2.1.gas_exhausted = true := by
  obtain ⟨cache, gas, ns, nm⟩ := st
  obtain ⟨pid, dl, tpl⟩ := p
  obtain ⟨cc, ⟨suc, ans, ahash, mth, err, raw⟩, now, tx⟩ := env
  intro hg
  cases tpl <;> cases suc <;> cases ans <;> cases ahash <;>
    simp only [solve_and_submit] <;> split_ifs <;>
    first
    | exact hg
    | rfl

/-! ### Fixtures used by the witnesses and counterexamples below -/

/-- A successful cascade result with answer `5`. -/
def srLocal5 : SolveResultDict :=
  ⟨true, some "5".toList, some (natToBytesBE 32 5), some "local".toList, none,
   some "本地求解: 5".toList⟩

/-- A run in which everything succeeds and the submission is mined. -/
def mnEnvOk : MinerEnv :=
  ⟨Except.ok false, srLocal5, 10, TxOutcome.receiptOk "0xabcd".toList⟩

/-- A run in which the submission reverts with the `AlreadySubmitted`
selector `0x81d820a8` in the raised error message. -/
def mnEnvAlready : MinerEnv :=
  ⟨Except.ok false, srLocal5, 10,
   TxOutcome.exn "execution reverted: 0x81d820a8 data".toList⟩

/-- A run in which the on-chain existence read raises. -/
def mnEnvChainErr : MinerEnv :=
  ⟨Except.error (), srLocal5, 10, TxOutcome.receiptOk "0xabcd".toList⟩

/-- A run in which the wall clock has passed the deadline after solving. -/
def mnEnvLate : MinerEnv :=
  ⟨Except.ok false, srLocal5, 1000, TxOutcome.receiptOk "0xabcd".toList⟩

/-- A problem with deadline `100` and a non-empty template. -/
def prW : ProblemInfo := ⟨7, 100, some "T".toList⟩

/-- A fresh miner state. -/
def stFresh : MinerState := ⟨[], false, 0, 0⟩

/-! ### Claim C1 -/

/-- **C1.** For every worker and problem id already in the worker's local
submitted-cache, `solve_and_submit` returns the skip outcome immediately,
leaves the state unchanged and performs no on-chain read or write (empty
trace); consequently, whenever a call ends in `submitted` or `skip`, a
second call with the same problem returns `skip` with no further
external calls. -/
theorem c1_cache_idempotence :
    (∀ (st : MinerState) (p : ProblemInfo) (env : MinerEnv),
        p.problem_id ∈ st.submitted_problems →
        solve_and_submit st p env = (MinerAction.skip, st, [])) ∧
    (∀ (st : MinerState) (p : ProblemInfo) (env1 env2 : MinerEnv),
        ((solve_and_submit st p env1).1 = MinerAction.submitted ∨
          (solve_and_submit st p env1).1 = MinerAction.skip) →
        solve_and_submit (solve_and_submit st p env1).2.1 p env2 =
          (MinerAction.skip, (solve_and_submit st p env1).2.1, [])) := by
  have base : ∀ (st : MinerState) (p : ProblemInfo) (env : MinerEnv),
      p.problem_id ∈ st.submitted_problems →
      solve_and_submit st p env = (MinerAction.skip, st, []) := by
    intro st p env h
    obtain ⟨cache, gas, ns, nm⟩ := st
    simp [solve_and_submit, h]
  refine ⟨base, ?_⟩
  intro st p env1 env2 h
  have hc := contains_of_terminal_success st p env1 h
  have hmem : p.problem_id ∈ (solve_and_submit st p env1).2.1.submitted_problems := by
    simpa using hc
  exact base _ p env2 hmem

/-- Witness for C1 at concrete inputs: a cache hit skips with an empty
trace, and a successful first run makes the second run skip. -/
theorem c1_witness :
    solve_and_submit ⟨[7], false, 0, 0⟩ prW mnEnvOk =
      (MinerAction.skip, ⟨[7], false, 0, 0⟩, []) ∧
    solve_and_submit (solve_and_submit stFresh prW mnEnvOk).2.1 prW mnEnvOk =
      (MinerAction.skip, (solve_and_submit stFresh prW mnEnvOk).2.1, []) :=
  ⟨c1_cache_idempotence.1 ⟨[7], false, 0, 0⟩ prW mnEnvOk (by decide),
   c1_cache_idempotence.2 stFresh prW mnEnvOk mnEnvOk (by decide)⟩

/-! ### Claim C2 -/

/-- **C2 counterexample.** When the submission reverts with reason
`AlreadySubmitted`, the outcome `solve_and_submit` returns is `skip`
(the source returns `{"action": "skip", ...}` at miner.py line 258), not
`submitted` as the claim states. -/
theorem c2_counterexample :
    (solve_and_submit stFresh prW mnEnvAlready).1 = MinerAction.skip ∧
    (solve_and_submit stFresh prW mnEnvAlready).1 ≠ MinerAction.submitted := by
  decide

/-- **C2 (amended).** Whenever a submission transaction reverts with
reason `AlreadySubmitted`, `solve_and_submit` adds the problem id to the
local submitted-cache, increments the worker's submitted counter, and
returns the `skip` outcome — a terminal success like a cache hit, and in
particular not `error`. -/
theorem c2_already_submitted_is_cached_skip
    (st : MinerState) (p : ProblemInfo) (env : MinerEnv)
    (h1 : p.problem_id ∉ st.submitted_problems)
    (h2 : has_submitted_onchain env.chain_check = false)
    (h3 : ∃ t, p.template_text = some t ∧ t ≠ [])
    (h4 : env.solve_result.success = true)
    (h5 : (∃ a, env.solve_result.answer = some a) ∧
          (∃ hsh, env.solve_result.answer_hash = some hsh))
    (h6 : env.now_recheck < p.answer_deadline)
    (h7 : ∃ msg, env.tx = TxOutcome.exn msg ∧
          parse_revert msg = some "AlreadySubmitted".toList) :
    solve_and_submit st p env =
      (MinerAction.skip,
       { st with
          submitted_problems := p.problem_id :: st.submitted_problems,
          problems_solved := st.problems_solved + 1,
          problems_submitted := st.problems_submitted + 1 },
       [MinerEff.chainRead p.problem_id, MinerEff.solve p.problem_id,
        MinerEff.chainWrite p.problem_id]) := by
  obtain ⟨t, ht, htne⟩ := h3
  obtain ⟨⟨a, ha⟩, ⟨hsh, hhsh⟩⟩ := h5
  obtain ⟨msg, htx, hrev⟩ := h7
  have hnotle : ¬ p.answer_deadline ≤ env.now_recheck := not_le.mpr h6
  simp [solve_and_submit, h1, h2, ht, htne, h4, ha, hhsh, hnotle, htx,
        submit_answer, hrev]

/-- Witness for the amended C2 at concrete inputs. -/
theorem c2_witness :
    solve_and_submit stFresh prW mnEnvAlready =
      (MinerAction.skip, ⟨[7], false, 1, 1⟩,
       [MinerEff.chainRead 7, MinerEff.solve 7, MinerEff.chainWrite 7]) :=
  c2_already_submitted_is_cached_skip stFresh prW mnEnvAlready
    (by decide) (by decide) ⟨"T".toList, rfl, by decide⟩ (by decide)
    ⟨⟨"5".toList, rfl⟩, ⟨natToBytesBE 32 5, rfl⟩⟩ (by decide)
    ⟨"execution reverted: 0x81d820a8 data".toList, rfl, by decide⟩

/-! ### Claim C3 -/

/-- **C3.** Whenever the wall clock has reached or passed
`answer_deadline` after the solve step completes, `solve_and_submit`
adds the problem id to the submitted-cache, returns the skip outcome,
and the trace contains no on-chain submission call. -/
theorem c3_deadline_respected
    (st : MinerState) (p : ProblemInfo) (env : MinerEnv)
    (h1 : p.problem_id ∉ st.submitted_problems)
    (h2 : has_submitted_onchain env.chain_check = false)
    (h3 : ∃ t, p.template_text = some t ∧ t ≠ [])
    (h4 : env.solve_result.success = true)
    (h5 : (∃ a, env.solve_result.answer = some a) ∧
          (∃ hsh, env.solve_result.answer_hash = some hsh))
    (h6 : p.answer_deadline ≤ env.now_recheck) :
    solve_and_submit st p env =
      (MinerAction.skip,
       { st with
          submitted_problems := p.problem_id :: st.submitted_problems,
          problems_solved := st.problems_solved + 1 },
       [MinerEff.chainRead p.problem_id, MinerEff.solve p.problem_id]) ∧
    MinerEff.chainWrite p.problem_id ∉ (solve_and_submit st p env).2.2 := by
  obtain ⟨t, ht, htne⟩ := h3
  obtain ⟨⟨a, ha⟩, ⟨hsh, hhsh⟩⟩ := h5
  have : solve_and_submit st p env =
      (MinerAction.skip,
       { st with
          submitted_problems := p.problem_id :: st.submitted_problems,
          problems_solved := st.problems_solved + 1 },
       [MinerEff.chainRead p.problem_id, MinerEff.solve p.problem_id]) := by
    simp [solve_and_submit, h1, h2, ht, htne, h4, ha, hhsh, h6]
  refine ⟨this, ?_⟩
  rw [this]
  simp

/-- Witness for C3 at concrete inputs (`now = 1000 ≥ deadline = 100`). -/
theorem c3_witness :
    solve_and_submit stFresh prW mnEnvLate =
      (MinerAction.skip, ⟨[7], false, 1, 0⟩,
       [MinerEff.chainRead 7, MinerEff.solve 7]) ∧
    MinerEff.chainWrite 7 ∉ (solve_and_submit stFresh prW mnEnvLate).2.2 :=
  c3_deadline_respected stFresh prW mnEnvLate
    (by decide) (by decide) ⟨"T".toList, rfl, by decide⟩ (by decide)
    ⟨⟨"5".toList, rfl⟩, ⟨natToBytesBE 32 5, rfl⟩⟩ (by decide)

/-! ### Claim C6 -/

/-- **C6.** A worker whose `gas_exhausted` flag is set is excluded from
the eligible set the orchestrator dispatches to (so its solve-and-submit
pipeline is not invoked for any problem id), and no branch of
`solve_and_submit` ever resets the flag to false. -/
theorem c6_sticky_gas_exhaustion :
    (∀ (miners : List MinerState) (pid : Nat) (m : MinerState),
        m.gas_exhausted = true → m ∉ pending_miners miners pid) ∧
    (∀ (st : MinerState) (p : ProblemInfo) (env : MinerEnv),
        st.gas_exhausted = true →
        (solve_and_submit st p env).2.1.gas_exhausted = true) := by
  refine ⟨?_, gas_exhausted_mono⟩
  intro miners pid m hg hmem
  have hp := List.of_mem_filter hmem
  rw [hg] at hp
  simp at hp

/-- Witness for C6 at concrete inputs. -/
theorem c6_witness :
    (⟨[], true, 0, 0⟩ : MinerState) ∉ pending_miners [⟨[], true, 0, 0⟩] 3 ∧
    (solve_and_submit ⟨[], true, 0, 0⟩ prW mnEnvOk).2.1.gas_exhausted = true :=
  ⟨c6_sticky_gas_exhaustion.1 [⟨[], true, 0, 0⟩] 3 ⟨[], true, 0, 0⟩ rfl,
   c6_sticky_gas_exhaustion.2 ⟨[], true, 0, 0⟩ prW mnEnvOk rfl⟩

/-! ### Claim C7 -/

/-- **C7 counterexample.** When the on-chain existence read raises, the
worker does **not** treat the result as unknown: `_has_submitted_onchain`
returns `False` (miner.py lines 422-423), and the worker proceeds to
solve and to send the submission transaction. -/
theorem c7_counterexample :
    mnEnvChainErr.chain_check = Except.error () ∧
    (solve_and_submit stFresh prW mnEnvChainErr).1 = MinerAction.submitted ∧
    MinerEff.chainWrite 7 ∈ (solve_and_submit stFresh prW mnEnvChainErr).2.2 :=
  ⟨rfl, by decide, by decide⟩

/-- **C7 (amended).** A raised exception in the on-chain existence read
is swallowed by `_has_submitted_onchain`, which returns `False`; the
worker therefore behaves exactly as if the read had reported "not
submitted" and proceeds with the pipeline. -/
theorem c7_existence_check_failure_means_not_submitted :
    has_submitted_onchain (Except.error ()) = false ∧
    (∀ (st : MinerState) (p : ProblemInfo) (env : MinerEnv) (u : Unit),
        env.chain_check = Except.error u →
        solve_and_submit st p env =
          solve_and_submit st p { env with chain_check := Except.ok false }) := by
  refine ⟨rfl, ?_⟩
  intro st p env u h
  have hh : has_submitted_onchain env.chain_check =
      has_submitted_onchain (Except.ok false) := by
    rw [h]; rfl
  simp only [solve_and_submit, hh]

/-- Witness for the amended C7 at concrete inputs. -/
theorem c7_witness :
    solve_and_submit stFresh prW mnEnvChainErr =
      solve_and_submit stFresh prW { mnEnvChainErr with chain_check := Except.ok false } :=
  c7_existence_check_failure_means_not_submitted.2 stFresh prW mnEnvChainErr () rfl

/-! ### Claim C4 -/

set_option maxRecDepth 4000 in
/-- **C4.** For every integer value the encoder accepts, the commitment
is the value reduced modulo `2^256` (so every negative value is wrapped
into the unsigned range) written as a 32-byte big-endian string; and the
commitment is a function of the value alone — any two values with the
same residue produce bit-identical output (in particular, encoding the
same integer twice is bit-identical, the encoder being a pure function). -/
theorem c4_commitment_deterministic_wrap (v : Int) (h : v < (2 : Int) ^ 256) :
    int_to_bytes32 v = some (natToBytesBE 32 ((v % (2 : Int) ^ 256).toNat)) ∧
    (natToBytesBE 32 ((v % (2 : Int) ^ 256).toNat)).length = 32 ∧
    (∀ w : Int, w < (2 : Int) ^ 256 →
      w % (2 : Int) ^ 256 = v % (2 : Int) ^ 256 →
      int_to_bytes32 w = int_to_bytes32 v) := by
  have hpow : (0 : Int) < (2 : Int) ^ 256 := by positivity
  have main : ∀ u : Int, u < (2 : Int) ^ 256 →
      int_to_bytes32 u = some (natToBytesBE 32 ((u % (2 : Int) ^ 256).toNat)) := by
    intro u hu
    by_cases hneg : u < 0
    · have hlt : u % (2 : Int) ^ 256 < (2 : Int) ^ 256 := Int.emod_lt_of_pos u hpow
      simp only [int_to_bytes32]
      rw [if_pos hneg, if_pos hlt]
    · push_neg at hneg
      have heq : u % (2 : Int) ^ 256 = u := Int.emod_eq_of_lt hneg hu
      simp only [int_to_bytes32]
      rw [if_neg (not_lt.mpr hneg), if_pos hu, heq]
  refine ⟨main v h, natToBytesBE_length _ _, ?_⟩
  intro w hw hmod
  rw [main w hw, main v h, hmod]

set_option maxRecDepth 4000 in
/-- Witness for C4: the value `-1` wraps to `2^256 - 1` (32 bytes of
`0xff`), and `-1 - 2^256` encodes identically. -/
theorem c4_witness :
    int_to_bytes32 (-1) =
      some (natToBytesBE 32 (((-1 : Int) % (2 : Int) ^ 256).toNat)) ∧
    (natToBytesBE 32 (((-1 : Int) % (2 : Int) ^ 256).toNat)).length = 32 ∧
    int_to_bytes32 (-1 - 2 ^ 256) = int_to_bytes32 (-1) :=
  ⟨(c4_commitment_deterministic_wrap (-1) (by norm_num)).1,
   (c4_commitment_deterministic_wrap (-1) (by norm_num)).2.1,
   (c4_commitment_deterministic_wrap (-1) (by norm_num)).2.2 (-1 - 2 ^ 256)
     (by norm_num)
     (by rw [show (-1 - 2 ^ 256 : Int) = -1 + (-1) * 2 ^ 256 by ring,
             Int.add_mul_emod_self])⟩

/-! ### A small backtracking regular-expression engine

`local_solver.py` and `solver.py` use `re.search` / `re.match` /
`re.sub` throughout.  Each pattern of the source is transcribed into
the `RE` syntax below, and `reSearch` executes it with Python's
semantics on the inputs of this development: leftmost match, ordered
alternation, greedy (`starG`) and lazy (`starL`) repetition, numbered
capturing groups where the last capture wins, `\b` via the previous
character, `$` at end of input (the texts here have no trailing
newline).  `ci` selects `re.IGNORECASE` (ASCII case folding, which
agrees with Python on these texts).  The matcher threads `fuel`
through every recursive call, so `fuel` bounds the recursion depth;
all uses below instantiate it far above any depth reachable on the
inputs involved. -/

inductive RE where
  | eps
  | lit (c : Char)
  | cls (f : Char → Bool)
  | dot
  | dotAll
  | seq (r1 r2 : RE)
  | alt (r1 r2 : RE)
  | starG (r : RE)
  | starL (r : RE)
  | opt (r : RE)
  | group (idx : Nat) (r : RE)
  | wordB
  | eos

/-- Concatenation of a list of pieces. -/
def RE.cat (rs : List RE) : RE := rs.foldr RE.seq RE.eps

/-- A literal string. -/
def RE.lits (s : String) : RE := RE.cat (s.toList.map RE.lit)

/-- `\s` — Python whitespace class (ASCII range of these texts). -/
def RE.ws : RE := RE.cls isPyWS

/-- `\s*`. -/
def RE.wsStar : RE := RE.starG RE.ws

/-- `\s+`. -/
def RE.wsPlus : RE := RE.seq RE.ws RE.wsStar

/-- `\d`. -/
def RE.digit : RE := RE.cls Char.isDigit

/-- `(\d+)` as capture group `idx`. -/
def RE.digits (idx : Nat) : RE :=
  RE.group idx (RE.seq RE.digit (RE.starG RE.digit))

/-- `r+` greedy. -/
def RE.plusG (r : RE) : RE := RE.seq r (RE.starG r)

/-- Word character for `\b` (Python `\w` over these ASCII texts). -/
def isWordChar (c : Char) : Bool := c.isAlphanum || c = '_'

/-- Captured groups, most recent capture first. -/
abbrev ReGroups := List (Nat × List Char)

/-- Case-sensitive or folded character comparison. -/
def charEq (ci : Bool) (c x : Char) : Bool :=
  if ci then c.toLower == x.toLower else c == x

/-- Class membership with optional case folding. -/
def clsMatch (ci : Bool) (f : Char → Bool) (x : Char) : Bool :=
  f x || (ci && (f x.toLower || f x.toUpper))

/-- CPS matcher.  `prev` is the character before the current position
(for `\b`), `s` the rest of the input, `g` the groups so far, and `k`
the continuation receiving the state after this piece has matched.
Backtracking retries alternatives in Python's priority order. -/
def matchRe (ci : Bool) :
    Nat → RE → Option Char → List Char → ReGroups →
    (Option Char → List Char → ReGroups → Option (List Char × ReGroups)) →
    Option (List Char × ReGroups)
  | 0, _, _, _, _, _ => none
  | _ + 1, RE.eps, prev, s, g, k => k prev s g
  | _ + 1, RE.lit c, _, s, g, k =>
      match s with
      | [] => none
      | x :: rest => if charEq ci c x then k (some x) rest g else none
  | _ + 1, RE.cls f, _, s, g, k =>
      match s with
      | [] => none
      | x :: rest => if clsMatch ci f x then k (some x) rest g else none
  | _ + 1, RE.dot, _, s, g, k =>
      match s with
      | [] => none
      | x :: rest => if x = '\n' then none else k (some x) rest g
  | _ + 1, RE.dotAll, _, s, g, k =>
      match s with
      | [] => none
      | x :: rest => k (some x) rest g
  | fuel + 1, RE.seq r1 r2, prev, s, g, k =>
      matchRe ci fuel r1 prev s g (fun p' s' g' => matchRe ci fuel r2 p' s' g' k)
  | fuel + 1, RE.alt r1 r2, prev, s, g, k =>
      match matchRe ci fuel r1 prev s g k with
      | some res => some res
      | none => matchRe ci fuel r2 prev s g k
  | fuel + 1, RE.starG r, prev, s, g, k =>
      match matchRe ci fuel r prev s g
          (fun p' s' g' => matchRe ci fuel (RE.starG r) p' s' g' k) with
      | some res => some res
      | none => k prev s g
  | fuel + 1, RE.starL r, prev, s, g, k =>
      match k prev s g with
      | some res => some res
      | none =>
          matchRe ci fuel r prev s g
            (fun p' s' g' => matchRe ci fuel (RE.starL r) p' s' g' k)
  | fuel + 1, RE.opt r, prev, s, g, k =>
      match matchRe ci fuel r prev s g k with
      | some res => some res
      | none => k prev s g
  | fuel + 1, RE.group idx r, prev, s, g, k =>
      matchRe ci fuel r prev s g
        (fun p' s' g' => k p' s' ((idx, s.take (s.length - s'.length)) :: g'))
  | _ + 1, RE.wordB, prev, s, g, k =>
      let wp := match prev with | none => false | some c => isWordChar c
      let wn := match s with | [] => false | x :: _ => isWordChar x
      if wp ≠ wn then k prev s g else none
  | _ + 1, RE.eos, prev, s, g, k =>
      if s.isEmpty then k prev s g else none

/-- Result of a search: start index, end index, and the groups. -/
structure ReMatch where
  startIdx : Nat
  endIdx : Nat
  groups : ReGroups
  deriving DecidableEq, Repr

/-- `m.group(idx)` — `none` when the group did not participate. -/
def ReMatch.grp (m : ReMatch) (idx : Nat) : Option (List Char) :=
  (m.groups.find? (fun p => p.1 = idx)).map (·.2)

def reFuel : Nat := 100000

/-- Try to match at the current position only (`re.match` semantics,
relative to the position reached so far). -/
def reMatchHere (ci : Bool) (r : RE) (prev : Option Char) (s : List Char)
    (startIdx : Nat) : Option ReMatch :=
  match matchRe ci reFuel r prev s [] (fun _ s' g' => some (s', g')) with
  | some (s', g') => some ⟨startIdx, startIdx + (s.length - s'.length), g'⟩
  | none => none

/-- `re.search`: leftmost successful start position. -/
def reSearchAux (ci : Bool) (r : RE) (prev : Option Char) (s : List Char)
    (startIdx : Nat) : Option ReMatch :=
  match reMatchHere ci r prev s startIdx with
  | some m => some m
  | none =>
      match s with
      | [] => none
      | c :: rest => reSearchAux ci r (some c) rest (startIdx + 1)

def reSearch (ci : Bool) (r : RE) (s : List Char) : Option ReMatch :=
  reSearchAux ci r none s 0

/-- `re.match`: anchored at the start of the string. -/
def reMatchStart (ci : Bool) (r : RE) (s : List Char) : Option ReMatch :=
  reMatchHere ci r none s 0

/-- `re.sub(pattern, repl, s)` where `repl` builds the replacement from
the groups.  The patterns substituted in this development never match
the empty string, so the empty-match advance rule of Python's `re.sub`
is not exercised; they also use no `\b`, so restarting the scan after
the previous replacement with no left context is faithful. -/
def reSubAll (ci : Bool) (fuel : Nat) (r : RE) (repl : ReGroups → List Char)
    (s : List Char) : List Char :=
  match fuel with
  | 0 => s
  | fuel + 1 =>
      match reSearch ci r s with
      | none => s
      | some m =>
          if m.endIdx ≤ m.startIdx then s
          else
            s.take m.startIdx ++ repl m.groups ++
              reSubAll ci fuel r repl (s.drop m.endIdx)

/-- Digits of a captured group as a number (`int(m.group(i))`). -/
def digitsToNat (s : List Char) : Nat :=
  s.foldl (fun a c => a * 10 + (c.toNat - 48)) 0

/-! ### `src/local_solver.py` — helpers

Conventions for the recognizer translations: `agent_id` and all values
extracted from the text are `Nat` (Python guarantees them non-negative
there); results are `Int` because some searches return `-1`.  A Python
exception raised inside a recognizer (only `ZeroDivisionError` from a
zero modulus extracted from the text, or an index error on an empty
graph) makes the embedded recognizer return `none`: `solve_locally`
catches every recognizer exception and moves on exactly as it does for
a `None` result, so the two are indistinguishable at its boundary. -/

/-- `_digit_sum` (lines 871-873): digit sum of `str(abs(n))`. -/
def digit_sum (n : Nat) : Nat := (Nat.digits 10 n).sum

/-- The loop body of `_sum_div35_not15` (lines 88-94), as the sum over
`k ≤ m` of the qualifying `k`. -/
def sum_div35_upto : Nat → Nat
  | 0 => 0
  | m + 1 =>
      sum_div35_upto m +
        (if ((m + 1) % 3 = 0 || (m + 1) % 5 = 0) && (m + 1) % 15 ≠ 0
         then m + 1 else 0)

/-- `_sum_div35_not15(n)`: sum of `1..n` divisible by 3 or 5 but not 15. -/
def sum_div35_not15 (n : Nat) : Nat := sum_div35_upto n

/-- `_digital_root` (lines 174-178); the digit sum of `n ≥ 10` is
smaller than `n`, so `n` itself bounds the number of iterations. -/
def digital_root_aux : Nat → Nat → Nat
  | 0, n => n
  | fuel + 1, n => if 10 ≤ n then digital_root_aux fuel (digit_sum n) else n

def digital_root (n : Nat) : Nat := digital_root_aux n n

/-- `_sum_prime_factors` (lines 876-889); each step divides `n` or
increments `d`, so `n + 2` iterations always suffice. -/
def spf_aux : Nat → Nat → Nat → Nat → Nat
  | 0, n, _, total => if 1 < n then total + n else total
  | fuel + 1, n, d, total =>
      if d * d ≤ n then
        if n % d = 0 then spf_aux fuel (n / d) d (total + d)
        else spf_aux fuel n (d + 1) total
      else if 1 < n then total + n else total

def sum_prime_factors (n : Nat) : Nat :=
  if n ≤ 1 then 0 else spf_aux (n + 2) n 2 0

/-- Python `for n in range(lo, hi): if p(n): return n` — the first
qualifying value, `none` when the range is exhausted. -/
def pySearchRangeAux (p : Nat → Bool) : Nat → Nat → Option Nat
  | 0, _ => none
  | fuel + 1, n => if p n then some n else pySearchRangeAux p fuel (n + 1)

def pySearchRange (lo hi : Nat) (p : Nat → Bool) : Option Nat :=
  pySearchRangeAux p (hi - lo) lo

/-- The decimal digits of `n` as literal pattern pieces (the
`str(agent_id)` interpolation of the source patterns). -/
def RE.natLits (n : Nat) : RE := RE.cat ((natToStr n).map RE.lit)

/-- `\{?AGENT_ID\}?`. -/
def reAgentBr : RE :=
  RE.cat [RE.opt (RE.lit '{'), RE.lits "AGENT_ID", RE.opt (RE.lit '}')]

/-- `(?:AGENT_ID|<agent_id>)`. -/
def reAgentOr (aid : Nat) : RE := RE.alt (RE.lits "AGENT_ID") (RE.natLits aid)

/-- `(?:\{?AGENT_ID\}?|<agent_id>)`. -/
def reAgentBrOr (aid : Nat) : RE := RE.alt reAgentBr (RE.natLits aid)

/-- `_extract_n` pattern 1 (line 851-854, `re.IGNORECASE`):
`N\s*=\s*\(?\s*(?:AGENT_ID|<aid>)\s*mod\s*(\d+)\s*\)?\s*\+\s*(\d+)`. -/
def reExtractN1 (aid : Nat) : RE :=
  RE.cat [RE.lit 'N', RE.wsStar, RE.lit '=', RE.wsStar, RE.opt (RE.lit '('),
    RE.wsStar, reAgentOr aid, RE.wsStar, RE.lits "mod", RE.wsStar,
    RE.digits 1, RE.wsStar, RE.opt (RE.lit ')'), RE.wsStar, RE.lit '+',
    RE.wsStar, RE.digits 2]

/-- `_extract_n` pattern 2 (line 859, no flags):
`N\s*=\s*(?:\{?AGENT_ID\}?|<aid>)\b`. -/
def reExtractN2 (aid : Nat) : RE :=
  RE.cat [RE.lit 'N', RE.wsStar, RE.lit '=', RE.wsStar, reAgentBrOr aid,
    RE.wordB]

/-- `_extract_n` pattern 3 (line 864, no flags): `N\s*=\s*(\d+)`. -/
def reExtractN3 : RE :=
  RE.cat [RE.lit 'N', RE.wsStar, RE.lit '=', RE.wsStar, RE.digits 1]

/-- `_extract_n` (lines 848-868). -/
def extract_n (text : List Char) (aid : Nat) : Option Nat :=
  match reSearch true (reExtractN1 aid) text with
  | some m =>
      let x := digitsToNat ((m.grp 1).getD [])
      if x = 0 then none
      else some (aid % x + digitsToNat ((m.grp 2).getD []))
  | none =>
      match reSearch false (reExtractN2 aid) text with
      | some _ => some aid
      | none =>
          match reSearch false reExtractN3 text with
          | some m => some (digitsToNat ((m.grp 1).getD []))
          | none => none

/-! ### Recognizers 1-3: divisibility sums (local_solver.py lines 64-178) -/

/-- Line 155 (no flags):
`N\s*=\s*\(?\s*AGENT_ID\s*mod\s*(\d+)\s*\)?\s*\+\s*(\d+)`. -/
def reDrpN : RE :=
  RE.cat [RE.lit 'N', RE.wsStar, RE.lit '=', RE.wsStar, RE.opt (RE.lit '('),
    RE.wsStar, RE.lits "AGENT_ID", RE.wsStar, RE.lits "mod", RE.wsStar,
    RE.digits 1, RE.wsStar, RE.opt (RE.lit ')'), RE.wsStar, RE.lit '+',
    RE.wsStar, RE.digits 2]

/-- Line 167 (`re.IGNORECASE`): `raise\s+2\s+to\s+the\s+power`. -/
def reRaise2a : RE :=
  RE.cat [RE.lits "raise", RE.wsPlus, RE.lit '2', RE.wsPlus, RE.lits "to",
    RE.wsPlus, RE.lits "the", RE.wsPlus, RE.lits "power"]

/-- Line 168 (`re.IGNORECASE`): `2\s*\^\s*(?:that|the)\s*digital\s*root`. -/
def reRaise2b : RE :=
  RE.cat [RE.lit '2', RE.wsStar, RE.lit '^', RE.wsStar,
    RE.alt (RE.lits "that") (RE.lits "the"), RE.wsStar, RE.lits "digital",
    RE.wsStar, RE.lits "root"]

/-- `_solve_div35_digital_root_power` (lines 144-171). -/
def solve_div35_digital_root_power (text : List Char) (aid : Nat) : Option Int :=
  if ¬ pyIn "divisible by 3 or 5".toList text then none
  else if ¬ pyIn "digital root".toList (pyLower text) then none
  else
    let nOpt : Option Nat :=
      match reSearch false reDrpN text with
      | some m =>
          let x := digitsToNat ((m.grp 1).getD [])
          if x = 0 then none
          else some (aid % x + digitsToNat ((m.grp 2).getD []))
      | none => extract_n text aid
    match nOpt with
    | none => none
    | some n =>
        let dr := digital_root (sum_div35_not15 n)
        if (reSearch true reRaise2a text).isSome ||
            (reSearch true reRaise2b text).isSome then
          some ((2 : Int) ^ dr)
        else some (dr : Int)

/-- Lines 112-114 (`re.IGNORECASE`):
`(?:modulo|mod)\s*\(\s*N\s*mod\s*(\d+)\s*\+\s*(\d+)\s*\)`. -/
def reMod1 : RE :=
  RE.cat [RE.alt (RE.lits "modulo") (RE.lits "mod"), RE.wsStar, RE.lit '(',
    RE.wsStar, RE.lit 'N', RE.wsStar, RE.lits "mod", RE.wsStar, RE.digits 1,
    RE.wsStar, RE.lit '+', RE.wsStar, RE.digits 2, RE.wsStar, RE.lit ')']

/-- Lines 118-120 (`re.IGNORECASE`):
`result\s+modulo\s*\(\s*N\s+mod\s+(\d+)\s*\+\s*(\d+)\s*\)`. -/
def reMod2 : RE :=
  RE.cat [RE.lits "result", RE.wsPlus, RE.lits "modulo", RE.wsStar,
    RE.lit '(', RE.wsStar, RE.lit 'N', RE.wsPlus, RE.lits "mod", RE.wsPlus,
    RE.digits 1, RE.wsStar, RE.lit '+', RE.wsStar, RE.digits 2, RE.wsStar,
    RE.lit ')']

/-- `_solve_div35_modulo` (lines 101-137). -/
def solve_div35_modulo (text : List Char) (aid : Nat) : Option Int :=
  if ¬ pyIn "divisible by 3 or 5".toList text then none
  else if ¬ pyIn "15".toList text then none
  else
    match (reSearch true reMod1 text).orElse (fun _ => reSearch true reMod2 text) with
    | none => none
    | some m =>
        if pyIn "digital root".toList (pyLower text) then none
        else
          match extract_n text aid with
          | none => none
          | some n =>
              let mod_base := digitsToNat ((m.grp 1).getD [])
              let mod_add := digitsToNat ((m.grp 2).getD [])
              if mod_base = 0 then none
              else
                let modulus := n % mod_base + mod_add
                if modulus = 0 then none
                else some ((sum_div35_not15 n % modulus : Nat) : Int)

/-- `_solve_div35_simple` (lines 64-85). -/
def solve_div35_simple (text : List Char) (aid : Nat) : Option Int :=
  if ¬ pyIn "divisible by 3 or 5".toList text then none
  else if ¬ pyIn "not".toList (pyLower text) || ¬ pyIn "15".toList text then none
  else if pyIn "modulo".toList (pyLower text) ||
      pyIn "mod".toList (pySplitLast (pyLower text) "15".toList) then none
  else if pyIn "digital root".toList (pyLower text) then none
  else (extract_n text aid).map (fun n => (sum_div35_not15 n : Int))

/-! ### Recognizers 4-6: digit-sum searches (local_solver.py lines 185-277) -/

/-- Lines 195-199 (`re.IGNORECASE | re.DOTALL`): the equal-pair shape
`sum\s+of\s+(?:the\s+)?digits\s+of\s+\(?\s*N\s*\*\s*(?:\{?AGENT_ID\}?|<aid>)\s*\)?`
`.*?equals.*?`
`sum\s+of\s+(?:the\s+)?digits\s+of\s+\(?\s*N\s*\*\s*\(?\s*(?:\{?AGENT_ID\}?|<aid>)\s*\+\s*1\s*\)?\s*\)?`. -/
def reDigitPair (aid : Nat) : RE :=
  RE.cat [RE.lits "sum", RE.wsPlus, RE.lits "of", RE.wsPlus,
    RE.opt (RE.cat [RE.lits "the", RE.wsPlus]), RE.lits "digits", RE.wsPlus,
    RE.lits "of", RE.wsPlus, RE.opt (RE.lit '('), RE.wsStar, RE.lit 'N',
    RE.wsStar, RE.lit '*', RE.wsStar, reAgentBrOr aid, RE.wsStar,
    RE.opt (RE.lit ')'),
    RE.starL RE.dotAll, RE.lits "equals", RE.starL RE.dotAll,
    RE.lits "sum", RE.wsPlus, RE.lits "of", RE.wsPlus,
    RE.opt (RE.cat [RE.lits "the", RE.wsPlus]), RE.lits "digits", RE.wsPlus,
    RE.lits "of", RE.wsPlus, RE.opt (RE.lit '('), RE.wsStar, RE.lit 'N',
    RE.wsStar, RE.lit '*', RE.wsStar, RE.opt (RE.lit '('), RE.wsStar,
    reAgentBrOr aid, RE.wsStar, RE.lit '+', RE.wsStar, RE.lit '1', RE.wsStar,
    RE.opt (RE.lit ')'), RE.wsStar, RE.opt (RE.lit ')')]

/-- The bounded search of `_solve_digit_sum_equal_pair` (lines 205-207):
first `n` in `range(1, 1000000)` with
`digit_sum(n * a) == digit_sum(n * (a + 1))`. -/
def pairSearch (aid : Nat) : Option Nat :=
  pySearchRange 1 1000000
    (fun n => digit_sum (n * aid) == digit_sum (n * (aid + 1)))

/-- `_solve_digit_sum_equal_pair` (lines 185-208); the exhausted search
falls through to `return 0`. -/
def solve_digit_sum_equal_pair (text : List Char) (aid : Nat) : Option Int :=
  if ¬ pyIn "smallest positive integer".toList (pyLower text) then none
  else
    match reSearch true (reDigitPair aid) text with
    | none => none
    | some _ =>
        match pairSearch aid with
        | some n => some (n : Int)
        | none => some 0

/-- The bounded search of `_solve_digit_sum_equal_self` (lines 235-237):
first `n` in `range(1, 1000000)` with `n % ds_a == 0` and
`digit_sum(n * a) == digit_sum(n)`. -/
def selfSearch (aid ds_a : Nat) : Option Nat :=
  pySearchRange 1 1000000
    (fun n => n % ds_a == 0 && digit_sum (n * aid) == digit_sum n)

/-- `_solve_digit_sum_equal_self` (lines 215-238); the exhausted search
falls through to `return 0`. -/
def solve_digit_sum_equal_self (text : List Char) (aid : Nat) : Option Int :=
  if ¬ pyIn "smallest positive integer".toList (pyLower text) then none
  else if ¬ pyIn "digits of N".toList text ∧
      ¬ pyIn ("digits of ".toList ++ natToStr aid) text then none
  else if ¬ pyIn "divisible by".toList (pyLower text) then none
  else
    let ds_a := if digit_sum aid = 0 then 1 else digit_sum aid
    match selfSearch aid ds_a with
    | some n => some (n : Int)
    | none => some 0

/-- Lines 254-257 (`re.IGNORECASE`):
`equals\s+(?:\{?AGENT_ID\}?|<aid>)\s+mod\s+(\d+)`. -/
def reTarget (aid : Nat) : RE :=
  RE.cat [RE.lits "equals", RE.wsPlus, reAgentBrOr aid, RE.wsPlus,
    RE.lits "mod", RE.wsPlus, RE.digits 1]

/-- `_solve_digit_sum_target` (lines 245-277); an exhausted search
returns 0, and a `prime factor` mention post-processes the found `n`. -/
def solve_digit_sum_target (text : List Char) (aid : Nat) : Option Int :=
  if ¬ pyIn "smallest positive integer".toList (pyLower text) then none
  else
    match reSearch true (reTarget aid) text with
    | none => none
    | some m =>
        let mod_val := digitsToNat ((m.grp 1).getD [])
        if mod_val = 0 then none
        else
          let target := aid % mod_val
          match pySearchRange 1 1000000
              (fun candidate => digit_sum (candidate * aid) == target) with
          | none => some 0
          | some n =>
              if pyIn "prime factor".toList (pyLower text) then
                some (sum_prime_factors n : Int)
              else some (n : Int)

/-! ### Recognizers 7, 8, 9, 13: recurrence sequences
(local_solver.py lines 284-484 and 637-691) -/

/-- `\{?s\}?` for a short literal `s`. -/
def reBrace (s : String) : RE :=
  RE.cat [RE.opt (RE.lit '{'), RE.lits s, RE.opt (RE.lit '}')]

/-- Python `seq.append(step(seq))` iterated `fuel` times. -/
def seqAppendAux (step : List Nat → Nat) : Nat → List Nat → List Nat
  | 0, seq => seq
  | fuel + 1, seq => seqAppendAux step fuel (seq ++ [step seq])

/-- `seq[-1]` (the sequences built here are never empty). -/
def listLast (l : List Nat) : Nat := l.getLast?.getD 0

/-- `seq[-2]`. -/
def listPenult (l : List Nat) : Nat := l.dropLast.getLast?.getD 0

/-- Lines 290-294 (`re.IGNORECASE`):
`a_0\s*=\s*(\d+)\s*,\s*a_1\s*=\s*(\d+)\s*,.*?`
`a_n\s*=\s*\(\s*a_\{?n-1\}?\s*\+\s*a_\{?n-2\}?\s*\)\s*mod\s*\(?\s*(?:N\s*\+\s*(\d+)|(\d+))\s*\)?`. -/
def reFibInit : RE :=
  RE.cat [RE.lits "a_0", RE.wsStar, RE.lit '=', RE.wsStar, RE.digits 1,
    RE.wsStar, RE.lit ',', RE.wsStar, RE.lits "a_1", RE.wsStar, RE.lit '=',
    RE.wsStar, RE.digits 2, RE.wsStar, RE.lit ',', RE.starL RE.dot,
    RE.lits "a_n", RE.wsStar, RE.lit '=', RE.wsStar, RE.lit '(', RE.wsStar,
    RE.lits "a_", reBrace "n-1", RE.wsStar, RE.lit '+', RE.wsStar,
    RE.lits "a_", reBrace "n-2", RE.wsStar, RE.lit ')', RE.wsStar,
    RE.lits "mod", RE.wsStar, RE.opt (RE.lit '('), RE.wsStar,
    RE.alt (RE.cat [RE.lit 'N', RE.wsStar, RE.lit '+', RE.wsStar, RE.digits 3])
      (RE.digits 4),
    RE.wsStar, RE.opt (RE.lit ')')]

/-- Lines 311-314 (`re.IGNORECASE`), searched in `text[init_match.end():]`:
`a_\{?\s*(?:N\s*mod\s*(\d+)\s*\+\s*(\d+)|(\d+))\s*\}?`. -/
def reFibIdx : RE :=
  RE.cat [RE.lits "a_", RE.opt (RE.lit '{'), RE.wsStar,
    RE.alt (RE.cat [RE.lit 'N', RE.wsStar, RE.lits "mod", RE.wsStar,
      RE.digits 1, RE.wsStar, RE.lit '+', RE.wsStar, RE.digits 2])
      (RE.digits 3),
    RE.wsStar, RE.opt (RE.lit '}')]

/-- Lines 317-320 (`re.IGNORECASE`):
`smallest\s+positive\s+integer\s+k\s+such\s+that\s+a_k\s*≡?\s*0\s*\(?\s*mod\s*(\d+)\s*\)?`
`.*?a_\{?k\+1\}?\s*≡?\s*0\s*\(?\s*mod\s*(\d+)\s*\)?`. -/
def reFibCond : RE :=
  RE.cat [RE.lits "smallest", RE.wsPlus, RE.lits "positive", RE.wsPlus,
    RE.lits "integer", RE.wsPlus, RE.lit 'k', RE.wsPlus, RE.lits "such",
    RE.wsPlus, RE.lits "that", RE.wsPlus, RE.lits "a_k", RE.wsStar,
    RE.opt (RE.lit '≡'), RE.wsStar, RE.lit '0', RE.wsStar,
    RE.opt (RE.lit '('), RE.wsStar, RE.lits "mod", RE.wsStar, RE.digits 1,
    RE.wsStar, RE.opt (RE.lit ')'), RE.starL RE.dot,
    RE.lits "a_", reBrace "k+1", RE.wsStar, RE.opt (RE.lit '≡'), RE.wsStar,
    RE.lit '0', RE.wsStar, RE.opt (RE.lit '('), RE.wsStar, RE.lits "mod",
    RE.wsStar, RE.digits 2, RE.wsStar, RE.opt (RE.lit ')')]

/-- Lines 328-331 (`re.IGNORECASE`):
`\(?\s*k\s*\*\s*(?:\{?AGENT_ID\}?|<aid>)\s*\)?\s*mod\s*(\d+)`. -/
def reFibFinal (aid : Nat) : RE :=
  RE.cat [RE.opt (RE.lit '('), RE.wsStar, RE.lit 'k', RE.wsStar, RE.lit '*',
    RE.wsStar, reAgentBrOr aid, RE.wsStar, RE.opt (RE.lit ')'), RE.wsStar,
    RE.lits "mod", RE.wsStar, RE.digits 1]

/-- Lines 349-352 (`re.IGNORECASE`):
`\(?\s*R\s*\*\s*\(?\s*N\s*mod\s*(\d+)\s*\+\s*(\d+)\s*\)?\s*\)?\s*mod\s*(\d+)`. -/
def reFibPost : RE :=
  RE.cat [RE.opt (RE.lit '('), RE.wsStar, RE.lit 'R', RE.wsStar, RE.lit '*',
    RE.wsStar, RE.opt (RE.lit '('), RE.wsStar, RE.lit 'N', RE.wsStar,
    RE.lits "mod", RE.wsStar, RE.digits 1, RE.wsStar, RE.lit '+', RE.wsStar,
    RE.digits 2, RE.wsStar, RE.opt (RE.lit ')'), RE.wsStar,
    RE.opt (RE.lit ')'), RE.wsStar, RE.lits "mod", RE.wsStar, RE.digits 3]

/-- The sequence of lines 306-308: `[a0, a1]` then 9998 appends of
`(seq[-1] + seq[-2]) % m`. -/
def fibSeq (a0 a1 m : Nat) : List Nat :=
  seqAppendAux (fun s => (listLast s + listPenult s) % m) 9998 [a0, a1]

/-- `_solve_fibonacci_like_mod` (lines 284-360). -/
def solve_fibonacci_like_mod (text : List Char) (aid : Nat) : Option Int :=
  match reSearch true reFibInit text with
  | none => none
  | some im =>
      let a0 := digitsToNat ((im.grp 1).getD [])
      let a1 := digitsToNat ((im.grp 2).getD [])
      let m := match im.grp 3 with
        | some g3 => aid + digitsToNat g3
        | none => digitsToNat ((im.grp 4).getD [])
      if m = 0 then none
      else
        let seq := fibSeq a0 a1 m
        let idxm := reSearch true reFibIdx (text.drop im.endIdx)
        match reSearch true reFibCond text with
        | some cm =>
            let mod1 := digitsToNat ((cm.grp 1).getD [])
            let mod2 := digitsToNat ((cm.grp 2).getD [])
            if mod1 = 0 ∨ mod2 = 0 then none
            else
              match pySearchRange 1 (seq.length - 1)
                  (fun k => seq.getD k 0 % mod1 == 0 &&
                    seq.getD (k + 1) 0 % mod2 == 0) with
              | some k =>
                  match reSearch true (reFibFinal aid) text with
                  | some fm =>
                      let fmod := digitsToNat ((fm.grp 1).getD [])
                      if fmod = 0 then none
                      else some ((k * aid % fmod : Nat) : Int)
                  | none => some (k : Int)
              | none => some (-1)
        | none =>
            match idxm with
            | some xm =>
                let kOpt : Option Nat :=
                  match xm.grp 1, xm.grp 2 with
                  | some g1, some g2 =>
                      let x := digitsToNat g1
                      if x = 0 then none else some (aid % x + digitsToNat g2)
                  | _, _ =>
                      match xm.grp 3 with
                      | some g3 => some (digitsToNat g3)
                      | none => none
                match kOpt with
                | none => none
                | some k =>
                    if k < seq.length then
                      let r := seq.getD k 0
                      match reSearch true reFibPost text with
                      | some pm =>
                          let mx := digitsToNat ((pm.grp 1).getD [])
                          let my := digitsToNat ((pm.grp 2).getD [])
                          let mz := digitsToNat ((pm.grp 3).getD [])
                          if mx = 0 ∨ mz = 0 then none
                          else some ((r * (aid % mx + my) % mz : Nat) : Int)
                      | none => some (r : Int)
                    else none
            | none => none

/-- Lines 373-377 (`re.IGNORECASE`):
`a_0\s*=\s*(?:N\s*mod\s*(\d+)|(\d+))\s*,.*?`
`a_\{?k\+1\}?\s*=\s*\(\s*a_k\s*\^?\s*(\d+)?\s*\*?\s*(\d+)?\s*\+\s*(\d+)\s*\)\s*mod\s*(\d+)`. -/
def reCsInit : RE :=
  RE.cat [RE.lits "a_0", RE.wsStar, RE.lit '=', RE.wsStar,
    RE.alt (RE.cat [RE.lit 'N', RE.wsStar, RE.lits "mod", RE.wsStar,
      RE.digits 1]) (RE.digits 2),
    RE.wsStar, RE.lit ',', RE.starL RE.dot,
    RE.lits "a_", reBrace "k+1", RE.wsStar, RE.lit '=', RE.wsStar,
    RE.lit '(', RE.wsStar, RE.lits "a_k", RE.wsStar, RE.opt (RE.lit '^'),
    RE.wsStar, RE.opt (RE.digits 3), RE.wsStar, RE.opt (RE.lit '*'),
    RE.wsStar, RE.opt (RE.digits 4), RE.wsStar, RE.lit '+', RE.wsStar,
    RE.digits 5, RE.wsStar, RE.lit ')', RE.wsStar, RE.lits "mod", RE.wsStar,
    RE.digits 6]

/-- Lines 380-384 (`re.IGNORECASE`):
`a_\{?1\}?\s*=\s*(?:N\s*mod\s*(\d+)|(\d+))\s*,.*?`
`a_\{?k\+1\}?\s*=\s*\(\s*a_k\s*\*\s*(\d+)\s*\+\s*(\d+)\s*\)\s*mod\s*(\d+)`. -/
def reCsInit2 : RE :=
  RE.cat [RE.lits "a_", reBrace "1", RE.wsStar, RE.lit '=', RE.wsStar,
    RE.alt (RE.cat [RE.lit 'N', RE.wsStar, RE.lits "mod", RE.wsStar,
      RE.digits 1]) (RE.digits 2),
    RE.wsStar, RE.lit ',', RE.starL RE.dot,
    RE.lits "a_", reBrace "k+1", RE.wsStar, RE.lit '=', RE.wsStar,
    RE.lit '(', RE.wsStar, RE.lits "a_k", RE.wsStar, RE.lit '*', RE.wsStar,
    RE.digits 3, RE.wsStar, RE.lit '+', RE.wsStar, RE.digits 4, RE.wsStar,
    RE.lit ')', RE.wsStar, RE.lits "mod", RE.wsStar, RE.digits 5]

/-- Line 424 (no flags): `a_0\s*\+\s*a_1\s*\+.*?a_\{?\s*(\d+)\s*\}?`. -/
def reSumPost : RE :=
  RE.cat [RE.lits "a_0", RE.wsStar, RE.lit '+', RE.wsStar, RE.lits "a_1",
    RE.wsStar, RE.lit '+', RE.starL RE.dot, RE.lits "a_",
    RE.opt (RE.lit '{'), RE.wsStar, RE.digits 1, RE.wsStar,
    RE.opt (RE.lit '}')]

/-- Line 432 (`re.IGNORECASE`): `M\s*=\s*\(\s*S\s*\*\s*N\s*\)\s*mod\s*(\d+)`. -/
def rePostM : RE :=
  RE.cat [RE.lit 'M', RE.wsStar, RE.lit '=', RE.wsStar, RE.lit '(',
    RE.wsStar, RE.lit 'S', RE.wsStar, RE.lit '*', RE.wsStar, RE.lit 'N',
    RE.wsStar, RE.lit ')', RE.wsStar, RE.lits "mod", RE.wsStar, RE.digits 1]

/-- Lines 439-443 (`re.IGNORECASE | re.DOTALL`):
`M\s+is\s+even.*?F\s*=\s*M\s*\^?\s*2\s*mod\s*(\d+).*?F\s*=\s*\(\s*M\s*\*\s*3\s*\)\s*mod\s*(\d+)`. -/
def reFMatch : RE :=
  RE.cat [RE.lit 'M', RE.wsPlus, RE.lits "is", RE.wsPlus, RE.lits "even",
    RE.starL RE.dotAll, RE.lit 'F', RE.wsStar, RE.lit '=', RE.wsStar,
    RE.lit 'M', RE.wsStar, RE.opt (RE.lit '^'), RE.wsStar, RE.lit '2',
    RE.wsStar, RE.lits "mod", RE.wsStar, RE.digits 1, RE.starL RE.dotAll,
    RE.lit 'F', RE.wsStar, RE.lit '=', RE.wsStar, RE.lit '(', RE.wsStar,
    RE.lit 'M', RE.wsStar, RE.lit '*', RE.wsStar, RE.lit '3', RE.wsStar,
    RE.lit ')', RE.wsStar, RE.lits "mod", RE.wsStar, RE.digits 2]

/-- Lines 456-459 (`re.IGNORECASE`):
`smallest.*?m.*?a_m\s*≡\s*a_\{?2m\}?\s*\(?\s*mod\s*(\d+)\s*\)?`. -/
def reCong : RE :=
  RE.cat [RE.lits "smallest", RE.starL RE.dot, RE.lit 'm', RE.starL RE.dot,
    RE.lits "a_m", RE.wsStar, RE.lit '≡', RE.wsStar, RE.lits "a_",
    reBrace "2m", RE.wsStar, RE.opt (RE.lit '('), RE.wsStar, RE.lits "mod",
    RE.wsStar, RE.digits 1, RE.wsStar, RE.opt (RE.lit ')')]

/-- `_apply_sequence_post` (lines 421-467). -/
def apply_sequence_post (text : List Char) (seq : List Nat) (aid : Nat) :
    Option Int :=
  let congBranch : Option Int :=
    match reSearch true reCong text with
    | some cm =>
        let mod_val := digitsToNat ((cm.grp 1).getD [])
        if mod_val = 0 then none
        else
          match pySearchRange 1 (seq.length / 2)
              (fun m => seq.getD m 0 % mod_val == seq.getD (2 * m) 0 % mod_val) with
          | some m => some (m : Int)
          | none => some (-1)
    | none => none
  match reSearch false reSumPost text with
  | some sm =>
      let t := digitsToNat ((sm.grp 1).getD [])
      if t < seq.length then
        let s := (seq.take (t + 1)).sum
        match reSearch true rePostM text with
        | some pm =>
            let mx := digitsToNat ((pm.grp 1).getD [])
            if mx = 0 then none
            else
              let m_val := s * aid % mx
              match reSearch true reFMatch text with
              | some fm =>
                  let mod_even := digitsToNat ((fm.grp 1).getD [])
                  let mod_odd := digitsToNat ((fm.grp 2).getD [])
                  if m_val % 2 = 0 then
                    if mod_even = 0 then none
                    else some ((m_val ^ 2 % mod_even : Nat) : Int)
                  else
                    if mod_odd = 0 then none
                    else some ((m_val * 3 % mod_odd : Nat) : Int)
              | none => some (m_val : Int)
        | none => some (s : Int)
      else congBranch
  | none => congBranch

/-- `_solve_custom_sequence_sum` (lines 367-418). -/
def solve_custom_sequence_sum (text : List Char) (aid : Nat) : Option Int :=
  match reSearch true reCsInit text with
  | none =>
      match reSearch true reCsInit2 text with
      | none => none
      | some im =>
          let a0Opt : Option Nat :=
            match im.grp 1 with
            | some g1 =>
                let x := digitsToNat g1
                if x = 0 then none else some (aid % x)
            | none => some (digitsToNat ((im.grp 2).getD []))
          match a0Opt with
          | none => none
          | some a0 =>
              let mult := digitsToNat ((im.grp 3).getD [])
              let add := digitsToNat ((im.grp 4).getD [])
              let mod := digitsToNat ((im.grp 5).getD [])
              if mod = 0 then none
              else
                let seq := seqAppendAux
                  (fun s => (listLast s * mult + add) % mod) 10000 [a0]
                apply_sequence_post text seq aid
  | some im =>
      let a0Opt : Option Nat :=
        match im.grp 1 with
        | some g1 =>
            let x := digitsToNat g1
            if x = 0 then none else some (aid % x)
        | none => some (digitsToNat ((im.grp 2).getD []))
      match a0Opt with
      | none => none
      | some a0 =>
          let power := match im.grp 3 with
            | some g3 => digitsToNat g3
            | none => 2
          let mult_factor := match im.grp 4 with
            | some g4 => digitsToNat g4
            | none => 1
          let add_const := digitsToNat ((im.grp 5).getD [])
          let mod := digitsToNat ((im.grp 6).getD [])
          if mod = 0 then none
          else
            let seq := seqAppendAux
              (fun s => (listLast s ^ power * mult_factor + add_const) % mod)
              10000 [a0]
            apply_sequence_post text seq aid

/-- `_solve_sequence_congruence` (lines 474-484): after its guards it
always defers (`return None`); the shape is handled by
`_solve_custom_sequence_sum`. -/
def solve_sequence_congruence (text : List Char) (_aid : Nat) : Option Int :=
  if ¬ pyIn "smallest".toList (pyLower text) || ¬ pyIn "a_m".toList text then
    none
  else if ¬ pyIn "a_\x7b2m\x7d".toList text ∧ ¬ pyIn "a_2m".toList text then none
  else none

/-- Line 648-650 (`re.IGNORECASE`): `a_\{?1\}?\s*=\s*(?:N\s*mod\s*(\d+)|(\d+))`. -/
def reCycleInit : RE :=
  RE.cat [RE.lits "a_", reBrace "1", RE.wsStar, RE.lit '=', RE.wsStar,
    RE.alt (RE.cat [RE.lit 'N', RE.wsStar, RE.lits "mod", RE.wsStar,
      RE.digits 1]) (RE.digits 2)]

/-- Lines 661-664 (`re.IGNORECASE`):
`a_\{?k\+1\}?\s*=\s*\(\s*a_k\s*\*\s*(\d+)\s*\+\s*(\d+)\s*\)\s*mod\s*(\d+)`. -/
def reCycleRec : RE :=
  RE.cat [RE.lits "a_", reBrace "k+1", RE.wsStar, RE.lit '=', RE.wsStar,
    RE.lit '(', RE.wsStar, RE.lits "a_k", RE.wsStar, RE.lit '*', RE.wsStar,
    RE.digits 1, RE.wsStar, RE.lit '+', RE.wsStar, RE.digits 2, RE.wsStar,
    RE.lit ')', RE.wsStar, RE.lits "mod", RE.wsStar, RE.digits 3]

/-- Lines 673-676 (`re.IGNORECASE`):
`a_m\s*≡\s*a_\{?2m\}?\s*\(?\s*mod\s*(\d+)\s*\)?`. -/
def reCycleCond : RE :=
  RE.cat [RE.lits "a_m", RE.wsStar, RE.lit '≡', RE.wsStar, RE.lits "a_",
    reBrace "2m", RE.wsStar, RE.opt (RE.lit '('), RE.wsStar, RE.lits "mod",
    RE.wsStar, RE.digits 1, RE.wsStar, RE.opt (RE.lit ')')]

/-- `_solve_custom_sequence_cycle` (lines 637-691). -/
def solve_custom_sequence_cycle (text : List Char) (aid : Nat) : Option Int :=
  if ¬ pyIn "smallest".toList (pyLower text) then none
  else if ¬ pyIn "a_m".toList text then none
  else
    match reSearch true reCycleInit text with
    | none => none
    | some im =>
        let a1Opt : Option Nat :=
          match im.grp 1 with
          | some g1 =>
              let x := digitsToNat g1
              if x = 0 then none else some (aid % x)
          | none => some (digitsToNat ((im.grp 2).getD []))
        match a1Opt with
        | none => none
        | some a1 =>
            match reSearch true reCycleRec text with
            | none => none
            | some rm =>
                let mult := digitsToNat ((rm.grp 1).getD [])
                let add := digitsToNat ((rm.grp 2).getD [])
                let mod := digitsToNat ((rm.grp 3).getD [])
                match reSearch true reCycleCond text with
                | none => none
                | some cm =>
                    let cond_mod := digitsToNat ((cm.grp 1).getD [])
                    if mod = 0 then none
                    else
                      let seq := seqAppendAux
                        (fun s => (listLast s * mult + add) % mod) 20000 [0, a1]
                      if cond_mod = 0 then none
                      else
                        match pySearchRange 1 (seq.length / 2)
                            (fun m => seq.getD m 0 % cond_mod ==
                              seq.getD (2 * m) 0 % cond_mod) with
                        | some m => some (m : Int)
                        | none => some (-1)

/-! ### Recognizers 10-12, 14-16 (local_solver.py lines 491-841) -/

/-- The lexicographically smallest entry of the heap (what `heappop`
returns; the heap order of the list representation is irrelevant to the
popped value). -/
def heapMin (pq : List (Nat × Nat)) : Option (Nat × Nat) :=
  pq.foldl (fun acc p =>
    match acc with
    | none => some p
    | some q => if p.1 < q.1 ∨ (p.1 = q.1 ∧ p.2 < q.2) then some p else some q)
    none

/-- Adjacency of node `i` (lines 517-525): edge `i → i+1` of weight 1
for `i < n-1`, then edge `i → i² mod n` of weight 2 under the source's
conditions, in append order. -/
def graphAdj (n i : Nat) : List (Nat × Nat) :=
  (if i < n - 1 then [(i + 1, 1)] else []) ++
    (let target := i * i % n
     if target ≠ i ∧ (n - 1 ≤ i ∨ target ≠ i + 1) then [(target, 2)] else [])

/-- The Dijkstra loop of lines 527-544.  `dist` entries are `none` for
`float('inf')`; `d > dist[u]` is false against infinity.  Fuel bounds
the iterations; `dijkstra` below passes more than the loop can use. -/
def dijkstra_aux (n : Nat) : Nat → List (Nat × Nat) → List (Option Nat) →
    Option Int
  | 0, _, _ => none
  | fuel + 1, pq, dist =>
      match heapMin pq with
      | none =>
          match dist.getD (n - 1) none with
          | none => some (-1)
          | some dv => some (dv : Int)
      | some du =>
          let d := du.1
          let u := du.2
          let pq' := pq.erase du
          let skip : Bool := match dist.getD u none with
            | some dcur => dcur < d
            | none => false
          if skip then dijkstra_aux n fuel pq' dist
          else if u = n - 1 then some (d : Int)
          else
            let step := (graphAdj n u).foldl
              (fun (acc : List (Nat × Nat) × List (Option Nat)) vw =>
                let nd := d + vw.2
                let better := match acc.2.getD vw.1 none with
                  | none => true
                  | some dv => nd < dv
                if better then
                  (acc.1 ++ [(nd, vw.1)], acc.2.set vw.1 (some nd))
                else acc)
              (pq', dist)
            dijkstra_aux n fuel step.1 step.2

def dijkstra (n : Nat) : Option Int :=
  dijkstra_aux n (4 * (n + 2) * (n + 2) + 10) [(0, 0)]
    ((List.replicate n (none : Option Nat)).set 0 (some 0))

/-- `_solve_graph_shortest_path` (lines 491-544); `n = 0` would index
an empty `dist` list, an exception. -/
def solve_graph_shortest_path (text : List Char) (aid : Nat) : Option Int :=
  if ¬ pyIn "directed graph".toList (pyLower text) ∧
      ¬ pyIn "shortest path".toList (pyLower text) then none
  else
    let nOpt : Option Nat :=
      match reSearch true (reExtractN1 aid) text with
      | some m =>
          let x := digitsToNat ((m.grp 1).getD [])
          if x = 0 then none
          else some (aid % x + digitsToNat ((m.grp 2).getD []))
      | none =>
          match reSearch false reExtractN3 text with
          | some m2 => some (digitsToNat ((m2.grp 1).getD []))
          | none => none
    match nOpt with
    | none => none
    | some n => if n = 0 then none else dijkstra n

/-- Line 573 (`re.IGNORECASE`): `divisible\s+by\s+(\d+)`. -/
def reDivBy : RE :=
  RE.cat [RE.lits "divisible", RE.wsPlus, RE.lits "by", RE.wsPlus, RE.digits 1]

/-- The double loop of lines 578-584. -/
def partition_count_calc (n d : Nat) : Nat :=
  (List.range' 1 (n - 1)).foldl (fun acc a =>
    (List.range' a (n - a)).foldl (fun acc2 b =>
      let c : Int := (n : Int) - a - b
      if (b : Int) ≤ c ∧ 1 ≤ c then
        if (a * a + b * b + c.toNat * c.toNat) % d = 0 then acc2 + 1 else acc2
      else acc2) acc) 0

/-- `_solve_partition_count` (lines 551-586); a zero divisor raises on
the first triple that reaches the divisibility test, which exists
exactly when `n ≥ 3`. -/
def solve_partition_count (text : List Char) (aid : Nat) : Option Int :=
  if ¬ pyIn "partition".toList (pyLower text) then none
  else if ¬ pyIn "three".toList (pyLower text) then none
  else
    match reSearch true (reExtractN1 aid) text with
    | none => none
    | some m =>
        let x := digitsToNat ((m.grp 1).getD [])
        if x = 0 then none
        else
          let n := aid % x + digitsToNat ((m.grp 2).getD [])
          match reSearch true reDivBy text with
          | none => none
          | some dm =>
              let d := digitsToNat ((dm.grp 1).getD [])
              if d = 0 then (if 3 ≤ n then none else some 0)
              else some (partition_count_calc n d : Int)

/-- The search loop of lines 624-630: at most 999999 steps
(`m in range(1, 1000000)`), else `-1`. -/
def digit_accum_aux (d : Nat) : Nat → Nat → Nat → Int
  | 0, _, _ => -1
  | fuel + 1, m, a =>
      if a % d = 0 then (m : Int)
      else digit_accum_aux d fuel (m + 1) (a + digit_sum a)

/-- `_solve_digit_accum_sequence` (lines 593-630). -/
def solve_digit_accum_sequence (text : List Char) (aid : Nat) : Option Int :=
  if ¬ pyIn "sum of digits".toList (pyLower text) ∧
      ¬ pyIn "digit".toList (pyLower text) then none
  else
    let stripped := pyReplace (pyReplace text "\x7b".toList []) "\x7d".toList []
    if ¬ pyIn "a_k + ".toList stripped ∧ ¬ pyIn "a_k +".toList stripped then
      none
    else
      let nOpt : Option Nat :=
        match reSearch true (reExtractN1 aid) text with
        | some m =>
            let x := digitsToNat ((m.grp 1).getD [])
            if x = 0 then none
            else some (aid % x + digitsToNat ((m.grp 2).getD []))
        | none => extract_n text aid
      match nOpt with
      | none => none
      | some n =>
          match reSearch true reDivBy text with
          | none => none
          | some dm =>
              let d := digitsToNat ((dm.grp 1).getD [])
              if d = 0 then none
              else some (digit_accum_aux d 999999 1 n)

/-- Lines 709-712 (no flags): `(?:AGENT_ID|<aid>)\s*mod\s*(\d+)\s*\+\s*(\d+)`. -/
def reHarshadMod (aid : Nat) : RE :=
  RE.cat [reAgentOr aid, RE.wsStar, RE.lits "mod", RE.wsStar, RE.digits 1,
    RE.wsStar, RE.lit '+', RE.wsStar, RE.digits 2]

/-- Lines 714-717 (no flags): `=\s*\(?\s*(?:AGENT_ID|<aid>)\s*mod\s*(\d+)\s*\)?`. -/
def reHarshadRem (aid : Nat) : RE :=
  RE.cat [RE.lit '=', RE.wsStar, RE.opt (RE.lit '('), RE.wsStar,
    reAgentOr aid, RE.wsStar, RE.lits "mod", RE.wsStar, RE.digits 1,
    RE.wsStar, RE.opt (RE.lit ')')]

/-- Line 726 (`re.IGNORECASE`): `n\s*[≤<=]\s*(\d+)`. -/
def reHarshadLimit : RE :=
  RE.cat [RE.lit 'n', RE.wsStar,
    RE.cls (fun c => c = '≤' || c = '<' || c = '='), RE.wsStar, RE.digits 1]

/-- The accumulation loop of lines 729-733. -/
def harshadSum (limit m r : Nat) : Nat :=
  (List.range' 1 limit).foldl (fun acc n =>
    let ds := digit_sum n
    if 0 < ds && n % ds == 0 && n % m == r then acc + n else acc) 0

/-- `_solve_harshad_modular_sum` (lines 698-735); `m = 0` raises inside
the loop at `n = 1` whenever the loop runs at all. -/
def solve_harshad_modular_sum (text : List Char) (aid : Nat) : Option Int :=
  if ¬ pyIn "divisible by the sum of its digits".toList (pyLower text) ∧
      ¬ pyIn "divisible by the sum of digits".toList (pyLower text) then none
  else
    match reSearch false (reHarshadMod aid) text,
        reSearch false (reHarshadRem aid) text with
    | some mm, some rm =>
        let x := digitsToNat ((mm.grp 1).getD [])
        let z := digitsToNat ((rm.grp 1).getD [])
        if x = 0 ∨ z = 0 then none
        else
          let m := aid % x + digitsToNat ((mm.grp 2).getD [])
          let r := aid % z
          let limit := match reSearch true reHarshadLimit text with
            | some lm => digitsToNat ((lm.grp 1).getD [])
            | none => 1000
          if m = 0 ∧ 1 ≤ limit then none
          else some (harshadSum limit m r : Int)
    | _, _ => none

/-- The double loop of lines 755-759. -/
def latticeCount (n : Nat) : Nat :=
  (List.range (2 * n + 1)).foldl (fun acc xi =>
    let x : Int := (xi : Int) - n
    (List.range (2 * n + 1)).foldl (fun acc2 yi =>
      let y : Int := (yi : Int) - n
      if x * x + y * y ≤ (n : Int) * n ∧ (x + y) % 2 = 0 ∧
          x.natAbs + y.natAbs ≤ n then acc2 + 1
      else acc2) acc) 0

/-- `_solve_lattice_points` (lines 742-761). -/
def solve_lattice_points (text : List Char) (aid : Nat) : Option Int :=
  if ¬ pyIn "lattice point".toList (pyLower text) then none
  else (extract_n text aid).map (fun n => (latticeCount n : Int))

/-- Lines 775-778 (`re.IGNORECASE`): `a[₁1]\s*=\s*\{?AGENT_ID\}?\s*mod\s*(\d+)`. -/
def reSquareInit1 : RE :=
  RE.cat [RE.lit 'a', RE.cls (fun c => c = '₁' || c = '1'), RE.wsStar,
    RE.lit '=', RE.wsStar, reAgentBr, RE.wsStar, RE.lits "mod", RE.wsStar,
    RE.digits 1]

/-- Lines 780-783 (`re.IGNORECASE`): `a[₁1]\s*=\s*<aid>\s*mod\s*(\d+)`. -/
def reSquareInit2 (aid : Nat) : RE :=
  RE.cat [RE.lit 'a', RE.cls (fun c => c = '₁' || c = '1'), RE.wsStar,
    RE.lit '=', RE.wsStar, RE.natLits aid, RE.wsStar, RE.lits "mod",
    RE.wsStar, RE.digits 1]

/-- Lines 790-793 (`re.IGNORECASE`):
`a[ₙn][₊+][₁1]\s*=\s*\(\s*a[ₙn][²2^]\s*\+\s*(\d+)\s*\)\s*mod\s*(\d+)`. -/
def reSquareRec1 : RE :=
  RE.cat [RE.lit 'a', RE.cls (fun c => c = 'ₙ' || c = 'n'),
    RE.cls (fun c => c = '₊' || c = '+'),
    RE.cls (fun c => c = '₁' || c = '1'), RE.wsStar, RE.lit '=', RE.wsStar,
    RE.lit '(', RE.wsStar, RE.lit 'a', RE.cls (fun c => c = 'ₙ' || c = 'n'),
    RE.cls (fun c => c = '²' || c = '2' || c = '^'), RE.wsStar, RE.lit '+',
    RE.wsStar, RE.digits 1, RE.wsStar, RE.lit ')', RE.wsStar, RE.lits "mod",
    RE.wsStar, RE.digits 2]

/-- Lines 795-798 (`re.IGNORECASE`):
`a_\{?n\+1\}?\s*=\s*\(\s*a_?n\s*[²^]\s*2?\s*\+\s*(\d+)\s*\)\s*mod\s*(\d+)`. -/
def reSquareRec2 : RE :=
  RE.cat [RE.lits "a_", reBrace "n+1", RE.wsStar, RE.lit '=', RE.wsStar,
    RE.lit '(', RE.wsStar, RE.lit 'a', RE.opt (RE.lit '_'), RE.lit 'n',
    RE.wsStar, RE.cls (fun c => c = '²' || c = '^'), RE.wsStar,
    RE.opt (RE.lit '2'), RE.wsStar, RE.lit '+', RE.wsStar, RE.digits 1,
    RE.wsStar, RE.lit ')', RE.wsStar, RE.lits "mod", RE.wsStar, RE.digits 2]

/-- Line 806 (`re.IGNORECASE`): `first\s+(\d+)\s+terms`. -/
def reSquareSum : RE :=
  RE.cat [RE.lits "first", RE.wsPlus, RE.digits 1, RE.wsPlus,
    RE.lits "terms"]

/-- Lines 818-821 (`re.IGNORECASE`):
`\(\s*S\s*[×x*]\s*\{?(?:AGENT_ID|<aid>)\}?\s*\)\s*mod\s*(\d+)`. -/
def reSquarePost (aid : Nat) : RE :=
  RE.cat [RE.lit '(', RE.wsStar, RE.lit 'S', RE.wsStar,
    RE.cls (fun c => c = '×' || c = 'x' || c = '*'), RE.wsStar,
    RE.opt (RE.lit '{'), reAgentOr aid, RE.opt (RE.lit '}'), RE.wsStar,
    RE.lit ')', RE.wsStar, RE.lits "mod", RE.wsStar, RE.digits 1]

/-- Lines 827-830 (`re.IGNORECASE | re.DOTALL`):
`even.*?=\s*\w+\s*[²^]\s*2?\s*mod\s*(\d+).*?odd.*?=.*?\*\s*3.*?mod\s*(\d+)`. -/
def reSquareCond : RE :=
  RE.cat [RE.lits "even", RE.starL RE.dotAll, RE.lit '=', RE.wsStar,
    RE.plusG (RE.cls isWordChar), RE.wsStar,
    RE.cls (fun c => c = '²' || c = '^'), RE.wsStar, RE.opt (RE.lit '2'),
    RE.wsStar, RE.lits "mod", RE.wsStar, RE.digits 1, RE.starL RE.dotAll,
    RE.lits "odd", RE.starL RE.dotAll, RE.lit '=', RE.starL RE.dotAll,
    RE.lit '*', RE.wsStar, RE.lit '3', RE.starL RE.dotAll, RE.lits "mod",
    RE.wsStar, RE.digits 2]

/-- `_solve_sequence_square_mod_sum` (lines 768-841). -/
def solve_sequence_square_mod_sum (text : List Char) (aid : Nat) : Option Int :=
  match (reSearch true reSquareInit1 text).orElse
      (fun _ => reSearch true (reSquareInit2 aid) text) with
  | none => none
  | some im =>
      let x := digitsToNat ((im.grp 1).getD [])
      if x = 0 then none
      else
        let a1 := aid % x
        match (reSearch true reSquareRec1 text).orElse
            (fun _ => reSearch true reSquareRec2 text) with
        | none => none
        | some rm =>
            let c := digitsToNat ((rm.grp 1).getD [])
            let m := digitsToNat ((rm.grp 2).getD [])
            match reSearch true reSquareSum text with
            | none => none
            | some sm =>
                let k := digitsToNat ((sm.grp 1).getD [])
                if m = 0 ∧ 2 ≤ k then none
                else
                  let seq := seqAppendAux
                    (fun s => (listLast s ^ 2 + c) % m) (k - 1) [a1]
                  let s := seq.sum
                  match reSearch true (reSquarePost aid) text with
                  | some pm =>
                      let p := digitsToNat ((pm.grp 1).getD [])
                      if p = 0 then none
                      else
                        let result := s * aid % p
                        match reSearch true reSquareCond text with
                        | some cm =>
                            let mod_even := digitsToNat ((cm.grp 1).getD [])
                            let mod_odd := digitsToNat ((cm.grp 2).getD [])
                            if result % 2 = 0 then
                              if mod_even = 0 then none
                              else some ((result ^ 2 % mod_even : Nat) : Int)
                            else
                              if mod_odd = 0 then none
                              else some ((result * 3 % mod_odd : Nat) : Int)
                        | none => some (result : Int)
                  | none => some (s : Int)

/-! ### `solve_locally` (local_solver.py lines 22-57) -/

/-- The ordered solver list of lines 30-47. -/
def localSolvers : List (List Char → Nat → Option Int) :=
  [solve_div35_digital_root_power,
   solve_div35_modulo,
   solve_div35_simple,
   solve_digit_sum_equal_pair,
   solve_digit_sum_equal_self,
   solve_digit_sum_target,
   solve_harshad_modular_sum,
   solve_lattice_points,
   solve_sequence_square_mod_sum,
   solve_fibonacci_like_mod,
   solve_custom_sequence_sum,
   solve_custom_sequence_cycle,
   solve_graph_shortest_path,
   solve_partition_count,
   solve_digit_accum_sequence,
   solve_sequence_congruence]

/-- `solve_locally` (lines 22-57): replace `{AGENT_ID}`, then return the
first recognizer result (a raised recognizer exception is caught and
treated like `None`, which the embedded recognizers already return). -/
def solve_locally (template_text : List Char) (agent_id : Nat) : Option Int :=
  let text := pyReplace template_text "{AGENT_ID}".toList (natToStr agent_id)
  localSolvers.findSome? (fun f => f text agent_id)

/-! ### `src/solver.py` — numeric extraction and the solving cascade

The language-model backend and the sandbox are oracles (`SolverEnv`):
per attempt `1..3`, `code_ai`/`reasoning_ai` give the completion text
(`none` models a raised call) and `code_exec` gives the sandbox stdout
(`none` models a timeout, a non-zero exit, or empty output).  Every AI
call and sandbox run is recorded as a `SolverEv` trace event. -/

/-- External calls of the cascade. -/
inductive SolverEv where
  | aiCall (mode : List Char)
  | execRun
  deriving DecidableEq, Repr

/-- Oracles for one cascade run. -/
structure SolverEnv where
  code_ai : Nat → Option (List Char)
  code_exec : Nat → Option (List Char)
  reasoning_ai : Nat → Option (List Char)

/-- Line 194 (`re.DOTALL`): ```` ```python\s*\n(.*?)``` ````. -/
def reCodeBlockPy : RE :=
  RE.cat [RE.lits "```python", RE.wsStar, RE.lit '\n',
    RE.group 1 (RE.starL RE.dotAll), RE.lits "```"]

/-- Line 199 (`re.DOTALL`): ```` ```\s*\n(.*?)``` ````. -/
def reCodeBlockAny : RE :=
  RE.cat [RE.lits "```", RE.wsStar, RE.lit '\n',
    RE.group 1 (RE.starL RE.dotAll), RE.lits "```"]

/-- `Solver._extract_code` (lines 191-205). -/
def extract_code (text : List Char) : Option (List Char) :=
  match reSearch false reCodeBlockPy text with
  | some m => some (pyStrip ((m.grp 1).getD []))
  | none =>
      match reSearch false reCodeBlockAny text with
      | some m =>
          let code := pyStrip ((m.grp 1).getD [])
          if pyIn "print".toList code then some code else none
      | none => none

/-- Line 236: ```` ```[\s\S]*?``` ````. -/
def reStripCodeBlock : RE :=
  RE.cat [RE.lits "```", RE.starL RE.dotAll, RE.lits "```"]

/-- Line 237: `` `([^`]+)` `` (replaced by its group 1). -/
def reStripBacktick : RE :=
  RE.cat [RE.lit '`', RE.group 1 (RE.plusG (RE.cls (fun c => c ≠ '`'))),
    RE.lit '`']

/-- Line 247 (`re.match` with `^...$`): `-?\d[\d,]*\.?\d*` anchored at
both ends (the per-line strings contain no newline, so `$` is end of
string). -/
def rePureNumber : RE :=
  RE.cat [RE.opt (RE.lit '-'), RE.digit,
    RE.starG (RE.cls (fun c => c.isDigit || c = ',')), RE.opt (RE.lit '.'),
    RE.starG RE.digit, RE.eos]

/-- Line 257: `(-?\d[\d,]*\.?\d*)`. -/
def reEmbedNumber : RE :=
  RE.group 1 (RE.cat [RE.opt (RE.lit '-'), RE.digit,
    RE.starG (RE.cls (fun c => c.isDigit || c = ',')), RE.opt (RE.lit '.'),
    RE.starG RE.digit])

/-- The shapes `float()` receives from the two extraction patterns
(optional sign, a non-empty integer part, an optional fraction); other
shapes cannot reach `_normalize_number` and map to the `ValueError`
branch. -/
def pyFloatParts (s : List Char) : Option (Bool × List Char × List Char) :=
  let neg := s.head? = some '-'
  let t := if neg then s.drop 1 else s
  let ip := t.takeWhile (fun c => c ≠ '.')
  match t.drop ip.length with
  | [] => if ip ≠ [] ∧ ip.all Char.isDigit then some (neg, ip, []) else none
  | '.' :: fp =>
      if ip ≠ [] ∧ ip.all Char.isDigit ∧ fp.all Char.isDigit then
        some (neg, ip, fp)
      else none
  | _ => none

/-- `Solver._normalize_number` (lines 264-272).  `val == int(val)` is
exact integrality of the decimal token — all fraction digits zero (the
tokens reaching this point are far below the 2^53 range where binary
floating point could blur the comparison). -/
def pyNormalizeNumber (num_str : List Char) : Option (List Char) :=
  match pyFloatParts num_str with
  | none => none
  | some (neg, ip, fp) =>
      if fp.all (fun c => c = '0') then
        some (intToStr (if neg then -(digitsToNat ip : Int)
                        else (digitsToNat ip : Int)))
      else some num_str

/-- Strategy 1 of `_extract_number` (lines 242-250): from the last line
upward, skip blank lines, strip `**`, and return the normalization of
the first whole-line number (terminating there even if normalization
fails).  The outer `some` marks that a line matched. -/
def extractNumStrat1 : List (List Char) → Option (Option (List Char))
  | [] => none
  | line :: rest =>
      let l := pyStrip line
      if l.isEmpty then extractNumStrat1 rest
      else
        let l2 := pyStrip (pyReplace l ['*', '*'] [])
        match reMatchStart false rePureNumber l2 with
        | some m =>
            some (pyNormalizeNumber (pyReplace (l2.take m.endIdx) [','] []))
        | none => extractNumStrat1 rest

/-- Strategy 2 of `_extract_number` (lines 252-260): from the last line
upward, the first line containing a number gives its leftmost number. -/
def extractNumStrat2 : List (List Char) → Option (Option (List Char))
  | [] => none
  | line :: rest =>
      let l := pyStrip line
      if l.isEmpty then extractNumStrat2 rest
      else
        match reSearch false reEmbedNumber l with
        | some m =>
            some (pyNormalizeNumber (pyReplace ((m.grp 1).getD []) [','] []))
        | none => extractNumStrat2 rest

/-- `Solver._extract_number` (lines 231-262). -/
def extract_number (text : List Char) : Option (List Char) :=
  let t0 := pyStrip text
  let t1 := reSubAll false 1000 reStripCodeBlock (fun _ => []) t0
  let t2 := reSubAll false 1000 reStripBacktick
    (fun g => ((g.find? (fun p => p.1 = 1)).map (·.2)).getD []) t1
  let lines := pySplitlines (pyStrip t2)
  match extractNumStrat1 lines.reverse with
  | some r => r
  | none =>
      match extractNumStrat2 lines.reverse with
      | some r => r
      | none => none

/-- `Solver._solve_with_code` (lines 118-145): up to three attempts;
a raised AI call, a missing or empty code block, a failed execution, an
unparseable output, a non-integer token (`int()` raising) or an
encoding overflow each end the attempt. -/
def solve_with_code_aux (env : SolverEnv) :
    Nat → Nat → List SolverEv → SolveResultDict × List SolverEv
  | _, 0, tr =>
      (⟨false, none, none, none, some "代码执行未产生有效数值".toList, none⟩, tr)
  | attempt, rem + 1, tr =>
      let tr1 := tr ++ [SolverEv.aiCall "code".toList]
      match env.code_ai attempt with
      | none => solve_with_code_aux env (attempt + 1) rem tr1
      | some raw0 =>
          let raw := pyStrip raw0
          match extract_code raw with
          | none => solve_with_code_aux env (attempt + 1) rem tr1
          | some code =>
              if code.isEmpty then solve_with_code_aux env (attempt + 1) rem tr1
              else
                let tr2 := tr1 ++ [SolverEv.execRun]
                match env.code_exec attempt with
                | none => solve_with_code_aux env (attempt + 1) rem tr2
                | some output =>
                    match extract_number output with
                    | none => solve_with_code_aux env (attempt + 1) rem tr2
                    | some numeric =>
                        match pyParseInt numeric with
                        | none => solve_with_code_aux env (attempt + 1) rem tr2
                        | some v =>
                            match int_to_bytes32 v with
                            | none =>
                                solve_with_code_aux env (attempt + 1) rem tr2
                            | some bs =>
                                (⟨true, some numeric, some bs,
                                  some "code".toList, none, some raw⟩, tr2)

def solve_with_code (env : SolverEnv) : SolveResultDict × List SolverEv :=
  solve_with_code_aux env 1 3 []

/-- `Solver._solve_with_reasoning` (lines 147-166). -/
def solve_with_reasoning_aux (env : SolverEnv) :
    Nat → Nat → List SolverEv → SolveResultDict × List SolverEv
  | _, 0, tr =>
      (⟨false, none, none, none, some "推理未产生有效数值".toList, none⟩, tr)
  | attempt, rem + 1, tr =>
      let tr1 := tr ++ [SolverEv.aiCall "reasoning".toList]
      match env.reasoning_ai attempt with
      | none => solve_with_reasoning_aux env (attempt + 1) rem tr1
      | some raw0 =>
          let raw := pyStrip raw0
          match extract_number raw with
          | none => solve_with_reasoning_aux env (attempt + 1) rem tr1
          | some numeric =>
              match pyParseInt numeric with
              | none => solve_with_reasoning_aux env (attempt + 1) rem tr1
              | some v =>
                  match int_to_bytes32 v with
                  | none => solve_with_reasoning_aux env (attempt + 1) rem tr1
                  | some bs =>
                      (⟨true, some numeric, some bs, some "reasoning".toList,
                        none, some raw⟩, tr1)

def solve_with_reasoning (env : SolverEnv) : SolveResultDict × List SolverEv :=
  solve_with_reasoning_aux env 1 3 []

/-- Strategies 1 and 2 of `Solver.solve` (lines 94-109): generated
code, then reasoning, then the concatenated diagnostic. -/
def solver_ai_path (env : SolverEnv) : SolveResultDict × List SolverEv :=
  let code := solve_with_code env
  if code.1.success then code
  else
    let reasoning := solve_with_reasoning env
    if reasoning.1.success then (reasoning.1, code.2 ++ reasoning.2)
    else
      (⟨false, none, none, none,
        some ("三种策略均失败".toList ++
          " | 代码: ".toList ++ (code.1.error.getD "?".toList) ++
          " | 推理: ".toList ++ (reasoning.1.error.getD "?".toList)),
        none⟩,
       code.2 ++ reasoning.2)

/-- `Solver.solve` (lines 70-109): strategy 0 is `solve_locally` with
the commitment encoding inside the `try` (an overflow falls through to
the AI strategies); then `solver_ai_path`. -/
def solver_solve (problem_text : List Char) (agent_id : Nat)
    (env : SolverEnv) : SolveResultDict × List SolverEv :=
  let ai := solver_ai_path env
  match solve_locally problem_text agent_id with
  | some local_answer =>
      match int_to_bytes32 local_answer with
      | some answer_bytes =>
          (⟨true, some (intToStr local_answer), some answer_bytes,
            some "local".toList, none,
            some ("本地求解: ".toList ++ intToStr local_answer)⟩, [])
      | none => ai
  | none => ai

/-! ### Supporting lemmas for claims C5, C8, C9, C10 -/

/-- A positive number has a positive digit sum (its leading digit is
non-zero and contributes to the sum). -/
theorem digit_sum_pos (n : Nat) (h : 0 < n) : 0 < digit_sum n := by
  have hne : Nat.digits 10 n ≠ [] :=
    Nat.digits_ne_nil_iff_ne_zero.mpr (Nat.pos_iff_ne_zero.mp h)
  have hlast := Nat.getLast_digit_ne_zero 10 (Nat.pos_iff_ne_zero.mp h)
  have hmem := List.getLast_mem hne
  have hle := List.single_le_sum (fun x _ => Nat.zero_le x) _ hmem
  have : 0 < (Nat.digits 10 n).getLast hne := Nat.pos_of_ne_zero hlast
  exact lt_of_lt_of_le this hle

/-- A bounded search whose predicate fails on every positive index is
exhausted when it starts at a positive index. -/
theorem pySearchRangeAux_none (p : Nat → Bool)
    (h : ∀ n, 1 ≤ n → p n = false) :
    ∀ (fuel s : Nat), 1 ≤ s → pySearchRangeAux p fuel s = none := by
  intro fuel
  induction fuel with
  | zero => intro s _; rfl
  | succ f ih =>
      intro s hs
      simp only [pySearchRangeAux]
      rw [h s hs]
      simpa using ih (s + 1) (by omega)

/-- For `agent_id = 0` the equal-self search can never succeed:
`digit_sum (n * 0) = 0` while `digit_sum n > 0` on all of `1..999999`. -/
theorem selfSearch_zero : selfSearch 0 1 = none := by
  unfold selfSearch pySearchRange
  apply pySearchRangeAux_none
  · intro n hn
    have hz : digit_sum 0 = 0 := by simp [digit_sum]
    have hp := digit_sum_pos n hn
    simp [Nat.mul_zero, hz, beq_iff_eq]
    omega
  · omega

/-- For `agent_id = 0` the equal-pair search can never succeed either:
`digit_sum (n * 0) = 0` while `digit_sum (n * 1) > 0`. -/
theorem pairSearch_zero : pairSearch 0 = none := by
  unfold pairSearch pySearchRange
  apply pySearchRangeAux_none
  · intro n hn
    have hz : digit_sum 0 = 0 := by simp [digit_sum]
    have hp := digit_sum_pos n hn
    simp [Nat.mul_zero, Nat.mul_one, hz, beq_iff_eq]
    omega
  · omega

/-- Any single qualifying term bounds the divisibility sum from below. -/
theorem le_sum_div35_upto (k : Nat)
    (hc : (((k % 3 = 0 : Bool) || (k % 5 = 0 : Bool)) &&
      (k % 15 ≠ 0 : Bool)) = true) :
    ∀ n, k ≤ n → k ≤ sum_div35_upto n := by
  intro n
  induction n with
  | zero =>
      intro hk
      have hk0 : k = 0 := Nat.le_zero.mp hk
      subst hk0
      exact absurd hc (by decide)
  | succ m ih =>
      intro hk
      rcases Nat.eq_or_lt_of_le hk with he | hl
      · rw [he]
        simp only [sum_div35_upto]
        rw [he] at hc
        rw [if_pos hc]
        exact Nat.le_add_left _ _
      · have h1 := ih (by omega)
        simp only [sum_div35_upto]
        exact le_trans h1 (Nat.le_add_right _ _)

set_option maxRecDepth 10000 in
/-- `10^79 + 2` is divisible by 3, not by 5, lies below `10^80`, and
exceeds `2^256`; it is a single term of the sum. -/
theorem two_pow_le_sum_div35 : 2 ^ 256 ≤ sum_div35_not15 (10 ^ 80) := by
  have hterm := le_sum_div35_upto (10 ^ 79 + 2) (by norm_num) (10 ^ 80)
    (by norm_num)
  calc (2 : Nat) ^ 256 ≤ 10 ^ 79 + 2 := by norm_num
    _ ≤ sum_div35_upto (10 ^ 80) := hterm

/-- The encoder rejects (raises on) any value of `2^256` or more. -/
theorem int_to_bytes32_none_of_ge (v : Int) (h0 : 0 ≤ v)
    (h : (2 : Int) ^ 256 ≤ v) : int_to_bytes32 v = none := by
  simp only [int_to_bytes32]
  rw [if_neg (not_lt.mpr h0), if_neg (not_lt.mpr h)]

/-- With its applicability guards satisfied, the equal-self recognizer
is exactly its bounded search with `0` as the exhaustion fallback. -/
theorem equal_self_reduces (text : List Char) (aid : Nat)
    (g1 : pyIn "smallest positive integer".toList (pyLower text) = true)
    (g2 : pyIn "digits of N".toList text = true ∨
      pyIn ("digits of ".toList ++ natToStr aid) text = true)
    (g3 : pyIn "divisible by".toList (pyLower text) = true) :
    solve_digit_sum_equal_self text aid =
      (match selfSearch aid (if digit_sum aid = 0 then 1 else digit_sum aid) with
       | some n => some (n : Int)
       | none => some 0) := by
  simp only [solve_digit_sum_equal_self]
  rw [if_neg (not_not_intro g1), if_neg ?hg2, if_neg (not_not_intro g3)]
  case hg2 =>
    rcases g2 with h | h
    · exact fun hc => hc.1 h
    · exact fun hc => hc.2 h

/-- With its guards satisfied, the equal-pair recognizer is exactly its
bounded search with `0` as the exhaustion fallback. -/
theorem equal_pair_reduces (text : List Char) (aid : Nat)
    (g1 : pyIn "smallest positive integer".toList (pyLower text) = true)
    (g2 : (reSearch true (reDigitPair aid) text).isSome = true) :
    solve_digit_sum_equal_pair text aid =
      (match pairSearch aid with
       | some n => some (n : Int)
       | none => some 0) := by
  simp only [solve_digit_sum_equal_pair]
  rw [if_neg (not_not_intro g1)]
  obtain ⟨m, hm⟩ := Option.isSome_iff_exists.mp g2
  rw [hm]

/-! ### Fixtures for claims C5, C8, C9, C10 -/

/-- A template the simple divisibility-sum recognizer solves with
`N = 10` (answer `33`). -/
def tmplSimple : List Char :=
  "Let N = 10. Compute the sum of all positive integers k ≤ N such that k is divisible by 3 or 5, but NOT divisible by 15. Provide the final integer result.".toList

/-- The same template with `N = 10^80`: the recognizer still matches
and returns `sum_div35_not15 (10^80) ≥ 2^256`, which overflows the
commitment encoding. -/
def tmplHuge : List Char :=
  "Let N = 100000000000000000000000000000000000000000000000000000000000000000000000000000000. Compute the sum of all positive integers k ≤ N such that k is divisible by 3 or 5, but NOT divisible by 15. Provide the final integer result.".toList

/-- An equal-self template; with `agent_id = 0` its search is hopeless. -/
def tmplSelfZero : List Char :=
  "Find the smallest positive integer N such that the sum of the digits of (N * 0) equals the sum of the digits of N, and N is divisible by the sum of the digits of 0.".toList

/-- An equal-pair template; with `agent_id = 0` its search is hopeless. -/
def tmplPairZero : List Char :=
  "Compute the smallest positive integer N such that the sum of the digits of (N * 0) equals the sum of the digits of (N * (0 + 1)).".toList

/-- Oracles under which every AI call raises. -/
def envNoAi : SolverEnv := ⟨fun _ => none, fun _ => none, fun _ => none⟩

/-! ### Claim C5 -/

/-- A local result whose encoding overflows sends the cascade to the
AI strategies. -/
theorem solver_solve_overflow (text : List Char) (aid : Nat)
    (env : SolverEnv) (v : Int)
    (h1 : solve_locally text aid = some v)
    (h2 : int_to_bytes32 v = none) :
    solver_solve text aid env = solver_ai_path env := by
  simp only [solver_solve, h1, h2]

set_option maxRecDepth 100000 in
/-- **C5 counterexample.** On `tmplHuge` the pattern solver returns the
definite numeric result `sum_div35_not15 (10^80)`, yet the cascade
invokes the code-generation strategy (the value exceeds `2^256`, so
`_int_to_bytes32` raises inside the strategy-0 `try` and the cascade
falls through to the AI strategies) — refuting "zero language-model
calls whenever the pattern solver returns a definite numeric result". -/
theorem c5_counterexample :
    solve_locally tmplHuge 7 = some ((sum_div35_not15 (10 ^ 80) : Nat) : Int) ∧
    (2 : Int) ^ 256 ≤ ((sum_div35_not15 (10 ^ 80) : Nat) : Int) ∧
    SolverEv.aiCall "code".toList ∈ (solver_solve tmplHuge 7 envNoAi).2 := by
  have h1 : solve_locally tmplHuge 7 =
      some ((sum_div35_not15 (10 ^ 80) : Nat) : Int) := by rfl
  have hb : (2 : Int) ^ 256 ≤ ((sum_div35_not15 (10 ^ 80) : Nat) : Int) := by
    exact_mod_cast two_pow_le_sum_div35
  refine ⟨h1, hb, ?_⟩
  have henc : int_to_bytes32 ((sum_div35_not15 (10 ^ 80) : Nat) : Int) = none :=
    int_to_bytes32_none_of_ge _ (Int.ofNat_nonneg _) hb
  rw [solver_solve_overflow tmplHuge 7 envNoAi _ h1 henc]
  decide

set_option maxRecDepth 100000 in
/-- **C5 (amended).** For every template text and agent seed on which
the pattern solver returns a definite numeric result that fits the
unsigned 256-bit range, the cascade returns success with
`method = "local"` immediately and performs no external call at all
(empty trace — in particular zero language-model calls); a result of
`2^256` or more instead overflows the encoding and falls through to the
AI strategies (see the counterexample). -/
theorem c5_local_short_circuit (text : List Char) (aid : Nat)
    (env : SolverEnv) (v : Int) (bs : List Nat)
    (h1 : solve_locally text aid = some v)
    (h2 : int_to_bytes32 v = some bs) :
    solver_solve text aid env =
      (⟨true, some (intToStr v), some bs, some "local".toList, none,
        some ("本地求解: ".toList ++ intToStr v)⟩, []) := by
  simp only [solver_solve, h1, h2]

set_option maxRecDepth 100000 in
/-- Witness for the amended C5: on `tmplSimple` the local answer is
`33`, the cascade returns it with `method = "local"` and an empty
trace. -/
theorem c5_witness :
    solver_solve tmplSimple 7 envNoAi =
      (⟨true, some (intToStr 33), some (natToBytesBE 32 33),
        some "local".toList, none,
        some ("本地求解: ".toList ++ intToStr 33)⟩, []) :=
  c5_local_short_circuit tmplSimple 7 envNoAi 33 (natToBytesBE 32 33)
    (by rfl) (by rfl)

/-! ### Claim C8 -/

set_option maxRecDepth 100000 in
/-- **C8 counterexample.** The equal-self recognizer's bounded search
(cap `10^6`) is exhausted for `agent_id = 0` on `tmplSelfZero`, and it
returns `0` — not a sentinel such as `-1` — although `0` is not a
domain-correct "smallest positive integer". -/
theorem c8_counterexample :
    selfSearch 0 1 = none ∧
    solve_digit_sum_equal_self tmplSelfZero 0 = some 0 ∧
    (0 : Int) ≠ -1 := by
  refine ⟨selfSearch_zero, ?_, by decide⟩
  rw [equal_self_reduces tmplSelfZero 0 (by rfl) (Or.inl (by rfl)) (by rfl)]
  have hz : digit_sum 0 = 0 := by simp [digit_sum]
  rw [if_pos hz, selfSearch_zero]

/-- **C8 (amended).** The bounded smallest-positive-integer searches of
the digit-sum recognizers are capped (one million iterations), but on
exhaustion they return `0` — not a domain sentinel — even though `0` is
never a valid "smallest positive integer" answer.  (The sequence and
graph searches do return `-1` on exhaustion.) -/
theorem c8_exhausted_digit_searches_return_zero :
    (∀ (text : List Char) (aid : Nat),
        pyIn "smallest positive integer".toList (pyLower text) = true →
        (pyIn "digits of N".toList text = true ∨
          pyIn ("digits of ".toList ++ natToStr aid) text = true) →
        pyIn "divisible by".toList (pyLower text) = true →
        selfSearch aid (if digit_sum aid = 0 then 1 else digit_sum aid) = none →
        solve_digit_sum_equal_self text aid = some 0) ∧
    (∀ (text : List Char) (aid : Nat),
        pyIn "smallest positive integer".toList (pyLower text) = true →
        (reSearch true (reDigitPair aid) text).isSome = true →
        pairSearch aid = none →
        solve_digit_sum_equal_pair text aid = some 0) := by
  constructor
  · intro text aid g1 g2 g3 hnone
    rw [equal_self_reduces text aid g1 g2 g3, hnone]
  · intro text aid g1 g2 hnone
    rw [equal_pair_reduces text aid g1 g2, hnone]

set_option maxRecDepth 100000 in
/-- Witness for the amended C8 at concrete inputs (`agent_id = 0`). -/
theorem c8_witness :
    solve_digit_sum_equal_self tmplSelfZero 0 = some 0 ∧
    solve_digit_sum_equal_pair tmplPairZero 0 = some 0 := by
  constructor
  · apply c8_exhausted_digit_searches_return_zero.1 tmplSelfZero 0
      (by rfl) (Or.inl (by rfl)) (by rfl)
    have hz : digit_sum 0 = 0 := by simp [digit_sum]
    rw [if_pos hz]
    exact selfSearch_zero
  · exact c8_exhausted_digit_searches_return_zero.2 tmplPairZero 0
      (by rfl) (by rfl) pairSearch_zero

/-! ### Claim C9 -/

/-- Spec-side per-line step (written from the amended claim's words):
a non-blank line that, after `**` removal, is entirely one number
yields that number's comma-free token. -/
def pureLineNumber (line : List Char) : Option (List Char) :=
  let l := pyStrip line
  if l.isEmpty then none
  else
    let l2 := pyStrip (pyReplace l ['*', '*'] [])
    (reMatchStart false rePureNumber l2).map
      (fun m => pyReplace (l2.take m.endIdx) [','] [])

/-- Spec-side fallback step: the leftmost number embedded in a
non-blank line. -/
def embeddedLineNumber (line : List Char) : Option (List Char) :=
  let l := pyStrip line
  if l.isEmpty then none
  else
    (reSearch false reEmbedNumber l).map
      (fun m => pyReplace ((m.grp 1).getD []) [','] [])

/-- The amended extraction contract, written from its words: clean the
text, then scan the lines from the last upward for the first whole-line
number; if no line qualifies, scan upward again for the first line
containing any number and take its leftmost one; normalize the token. -/
def extract_number_spec (text : List Char) : Option (List Char) :=
  let t0 := pyStrip text
  let t1 := reSubAll false 1000 reStripCodeBlock (fun _ => []) t0
  let t2 := reSubAll false 1000 reStripBacktick
    (fun g => ((g.find? (fun p => p.1 = 1)).map (·.2)).getD []) t1
  let rev := (pySplitlines (pyStrip t2)).reverse
  match rev.findSome? pureLineNumber with
  | some tok => pyNormalizeNumber tok
  | none =>
      match rev.findSome? embeddedLineNumber with
      | some tok => pyNormalizeNumber tok
      | none => none

theorem strat1_eq (ls : List (List Char)) :
    extractNumStrat1 ls = (ls.findSome? pureLineNumber).map pyNormalizeNumber := by
  induction ls with
  | nil => rfl
  | cons line rest ih =>
      by_cases he : (pyStrip line).isEmpty = true
      · simp [extractNumStrat1, List.findSome?_cons, pureLineNumber, he, ih]
      · cases hm : reMatchStart false rePureNumber
            (pyStrip (pyReplace (pyStrip line) ['*', '*'] [])) with
        | some m =>
            simp [extractNumStrat1, List.findSome?_cons, pureLineNumber, he, hm]
        | none =>
            simp [extractNumStrat1, List.findSome?_cons, pureLineNumber, he,
              hm, ih]

theorem strat2_eq (ls : List (List Char)) :
    extractNumStrat2 ls =
      (ls.findSome? embeddedLineNumber).map pyNormalizeNumber := by
  induction ls with
  | nil => rfl
  | cons line rest ih =>
      by_cases he : (pyStrip line).isEmpty = true
      · simp [extractNumStrat2, List.findSome?_cons, embeddedLineNumber, he, ih]
      · cases hm : reSearch false reEmbedNumber (pyStrip line) with
        | some m =>
            simp [extractNumStrat2, List.findSome?_cons, embeddedLineNumber,
              he, hm]
        | none =>
            simp [extractNumStrat2, List.findSome?_cons, embeddedLineNumber,
              he, hm, ih]

/-- **C9 counterexample.** The fallback extraction is neither confined
to the last non-empty line nor takes the last embedded number: on the
one-line text `"= 3 and 42"` it returns `3` (the leftmost number, where
the claim says the last, `42`), and on a text whose last line has no
digits it climbs to the earlier line and returns `7` (where the claim
says the fallback looks at the last non-empty line only). -/
theorem c9_counterexample :
    extract_number "= 3 and 42".toList = some "3".toList ∧
    extract_number "Result computed from 7 terms\nno digits in this line".toList =
      some "7".toList := by
  constructor <;> rfl

/-- **C9 (amended).** For every response text, extraction cleans the
text (strip, fenced-block removal, backtick unwrapping), then scans
from the last line upward for the first line that is entirely one
number (skipping blank lines, ignoring `**`); if no line qualifies, it
scans from the last line upward again and returns the leftmost number
of the first line containing one; the token is normalized (integral
floats to integer form).  Formally: the source extraction equals the
contract above on every input. -/
theorem c9_extraction_refines_spec :
    ∀ text : List Char, extract_number text = extract_number_spec text := by
  intro text
  simp only [extract_number, extract_number_spec, strat1_eq, strat2_eq]
  cases hX : ((pySplitlines (pyStrip (reSubAll false 1000 reStripBacktick
      (fun g => ((g.find? (fun p => p.1 = 1)).map (·.2)).getD [])
      (reSubAll false 1000 reStripCodeBlock (fun _ => []) (pyStrip text))))).reverse).findSome?
      pureLineNumber with
  | some tok => simp [hX]
  | none =>
      cases hY : ((pySplitlines (pyStrip (reSubAll false 1000 reStripBacktick
          (fun g => ((g.find? (fun p => p.1 = 1)).map (·.2)).getD [])
          (reSubAll false 1000 reStripCodeBlock (fun _ => []) (pyStrip text))))).reverse).findSome?
          embeddedLineNumber with
      | some tok => simp [hX, hY]
      | none => simp [hX, hY]

/-! ### Claim C10 -/

set_option maxRecDepth 4000 in
/-- Every success of the code strategy carries a hash produced by the
encoder. -/
theorem code_aux_success_hash (env : SolverEnv) :
    ∀ (r a : Nat) (tr : List SolverEv),
      (solve_with_code_aux env a r tr).1.success = true →
      ∃ v bs, int_to_bytes32 v = some bs ∧
        (solve_with_code_aux env a r tr).1.answer_hash = some bs := by
  intro r
  induction r with
  | zero => intro a tr h; exact absurd h (by simp [solve_with_code_aux])
  | succ r ih =>
      intro a tr h
      simp only [solve_with_code_aux] at h ⊢
      cases hai : env.code_ai a with
      | none => simp only [hai] at h ⊢; exact ih _ _ h
      | some raw0 =>
          simp only [hai] at h ⊢
          cases hec : extract_code (pyStrip raw0) with
          | none => simp only [hec] at h ⊢; exact ih _ _ h
          | some code =>
              simp only [hec] at h ⊢
              by_cases hemp : code.isEmpty = true
              · simp only [if_pos hemp] at h ⊢; exact ih _ _ h
              · simp only [if_neg hemp] at h ⊢
                cases hex : env.code_exec a with
                | none => simp only [hex] at h ⊢; exact ih _ _ h
                | some output =>
                    simp only [hex] at h ⊢
                    cases hen : extract_number output with
                    | none => simp only [hen] at h ⊢; exact ih _ _ h
                    | some numeric =>
                        simp only [hen] at h ⊢
                        cases hpi : pyParseInt numeric with
                        | none => simp only [hpi] at h ⊢; exact ih _ _ h
                        | some v =>
                            simp only [hpi] at h ⊢
                            cases hb : int_to_bytes32 v with
                            | none => simp only [hb] at h ⊢; exact ih _ _ h
                            | some bs =>
                                simp only [hb] at h ⊢
                                exact ⟨v, bs, hb, rfl⟩

set_option maxRecDepth 4000 in
/-- Every success of the reasoning strategy carries a hash produced by
the encoder. -/
theorem reasoning_aux_success_hash (env : SolverEnv) :
    ∀ (r a : Nat) (tr : List SolverEv),
      (solve_with_reasoning_aux env a r tr).1.success = true →
      ∃ v bs, int_to_bytes32 v = some bs ∧
        (solve_with_reasoning_aux env a r tr).1.answer_hash = some bs := by
  intro r
  induction r with
  | zero => intro a tr h; exact absurd h (by simp [solve_with_reasoning_aux])
  | succ r ih =>
      intro a tr h
      simp only [solve_with_reasoning_aux] at h ⊢
      cases hai : env.reasoning_ai a with
      | none => simp only [hai] at h ⊢; exact ih _ _ h
      | some raw0 =>
          simp only [hai] at h ⊢
          cases hen : extract_number (pyStrip raw0) with
          | none => simp only [hen] at h ⊢; exact ih _ _ h
          | some numeric =>
              simp only [hen] at h ⊢
              cases hpi : pyParseInt numeric with
              | none => simp only [hpi] at h ⊢; exact ih _ _ h
              | some v =>
                  simp only [hpi] at h ⊢
                  cases hb : int_to_bytes32 v with
                  | none => simp only [hb] at h ⊢; exact ih _ _ h
                  | some bs =>
                      simp only [hb] at h ⊢
                      exact ⟨v, bs, hb, rfl⟩

set_option maxRecDepth 4000 in
/-- Every success of the AI fallback carries a hash produced by the
encoder. -/
theorem ai_path_success_hash (env : SolverEnv) :
    (solver_ai_path env).1.success = true →
    ∃ v bs, int_to_bytes32 v = some bs ∧
      (solver_ai_path env).1.answer_hash = some bs := by
  intro h
  simp only [solver_ai_path] at h ⊢
  cases hc : (solve_with_code env).1.success with
  | true =>
      simp only [hc, if_true] at h ⊢
      exact code_aux_success_hash env 3 1 [] (by
        have := hc
        simpa [solve_with_code] using this)
  | false =>
      simp only [hc, Bool.false_eq_true, if_false] at h ⊢
      cases hr : (solve_with_reasoning env).1.success with
      | true =>
          simp only [hr, if_true] at h ⊢
          exact reasoning_aux_success_hash env 3 1 [] (by
            simpa [solve_with_reasoning] using hr)
      | false =>
          simp only [hr, Bool.false_eq_true, if_false] at h

set_option maxRecDepth 4000 in
/-- **C10.** The commitment encoder accepts exactly the integers below
`2^256` (in particular it is total on all negative values, which the
bitmask wraps into range) and raises otherwise; and every cascade
result with `success = true` carries an `answer_hash` that is the exact
output of the encoder on some integer — so an answer whose encoding
would overflow can never surface as a success with a truncated
commitment. -/
theorem c10_encoder_totality_and_no_truncation :
    (∀ v : Int, (int_to_bytes32 v).isSome = true ↔ v < (2 : Int) ^ 256) ∧
    (∀ (text : List Char) (aid : Nat) (env : SolverEnv),
        (solver_solve text aid env).1.success = true →
        ∃ v bs, int_to_bytes32 v = some bs ∧
          (solver_solve text aid env).1.answer_hash = some bs) := by
  constructor
  · intro v
    have hpow : (0 : Int) < (2 : Int) ^ 256 := by positivity
    simp only [int_to_bytes32]
    by_cases hneg : v < 0
    · rw [if_pos hneg, if_pos (Int.emod_lt_of_pos v hpow)]
      exact iff_of_true rfl (lt_of_lt_of_le hneg hpow.le)
    · rw [if_neg hneg]
      by_cases h2 : v < (2 : Int) ^ 256
      · rw [if_pos h2]; exact iff_of_true rfl h2
      · rw [if_neg h2]; exact iff_of_false (by simp) h2
  · intro text aid env h
    simp only [solver_solve] at h ⊢
    cases hl : solve_locally text aid with
    | none =>
        simp only [hl] at h ⊢
        exact ai_path_success_hash env h
    | some local_answer =>
        simp only [hl] at h ⊢
        cases hb : int_to_bytes32 local_answer with
        | none =>
            simp only [hb] at h ⊢
            exact ai_path_success_hash env h
        | some bs =>
            simp only [hb] at h ⊢
            exact ⟨local_answer, bs, hb, rfl⟩

set_option maxRecDepth 100000 in
/-- Witness for C10 at concrete inputs: the `tmplSimple` run succeeds,
so its hash is an exact encoder output; and the boundary values of the
encoder behave as stated. -/
theorem c10_witness :
    ((int_to_bytes32 (-5)).isSome = true ↔ (-5 : Int) < (2 : Int) ^ 256) ∧
    (∃ v bs, int_to_bytes32 v = some bs ∧
      (solver_solve tmplSimple 7 envNoAi).1.answer_hash = some bs) :=
  ⟨c10_encoder_totality_and_no_truncation.1 (-5),
   c10_encoder_totality_and_no_truncation.2 tmplSimple 7 envNoAi (by rfl)⟩
